import Mathlib

/-!
Verification of the ITSM request-creation conversational flow of the
azure-bot repository (src/components/itsm/index.mjs, src/state/conversation.mjs,
src/services/itsm.service.mjs, src/utils/helpers.mjs, src/utils/html.mjs).

The JavaScript handlers are embedded shallowly as pure Lean functions:

* the in-memory conversation-state `Map` becomes an association list
  (`Store`), with `getState` / `setState` / `deleteState` mirroring
  src/state/conversation.mjs;
* every step handler of the state machine (`handleRequestFlow`, `goBack`,
  `handleServiceDesk`, `handlePortalGroup`, `handleRequestType`,
  `handleConfirm`, `createRequest` and its helpers) is translated from
  src/components/itsm/index.mjs;
* asynchronous upstream calls are modelled by an environment of pure
  functions (`ITSMEnv`); calls to the create-request endpoint are recorded
  in the result so that "the upstream operation was not invoked" is
  expressible;
* display-only helpers from src/components/itsm/display.mjs produce large
  HTML menus whose content no verified property depends on; they are
  represented by placeholder message tokens;
* `fieldHandlers.mjs` (field reconciliation and the per-field input
  validator) is imported by components/itsm/index.mjs but is not present in
  the sources; those two functions are modelled from the specification
  (sections 4.1 and 4.3) and are marked `Modelled from the spec:`.

JavaScript-specific semantics (truthiness, `parseInt`, `===` comparisons
against `null` / `undefined` / `''`, template-literal stringification) are
made explicit in small helper functions.
-/

namespace AzureBot

/-! ## Association-list primitives (JS objects / Maps) -/

/-- Look up a key in an association list (JS `obj[key]`, `undefined` ↦ `none`). -/
def lookupKey {α : Type} (l : List (String × α)) (k : String) : Option α :=
  (l.find? (fun kv => kv.1 = k)).map (fun kv => kv.2)

/-- Set a key in an association list (JS `obj[key] = v`): an existing key is
overwritten in place, a new key is appended (JS objects keep insertion order). -/
def insertKey {α : Type} (l : List (String × α)) (k : String) (v : α) :
    List (String × α) :=
  if (l.find? (fun kv => kv.1 = k)).isSome then
    l.map (fun kv => if kv.1 = k then (k, v) else kv)
  else
    l ++ [(k, v)]

/-- Remove a key from an association list (JS `delete obj[key]`). -/
def eraseKey {α : Type} (l : List (String × α)) (k : String) : List (String × α) :=
  l.filter (fun kv => kv.1 ≠ k)

/-! ## JS primitive semantics

The embedding re-implements the string utilities it needs on `List Char`
(rather than through `Substring`-based library functions) so that every
definition evaluates by plain structural recursion. -/

/-- JS `String.prototype.toLowerCase()` (ASCII case folding, which is all the
command vocabulary needs). -/
def jsToLower (s : String) : String := ⟨s.data.map Char.toLower⟩

/-- JS `String.prototype.trim()`: strip whitespace from both ends. -/
def jsTrim (s : String) : String :=
  ⟨((s.data.dropWhile Char.isWhitespace).reverse.dropWhile Char.isWhitespace).reverse⟩

/-- String prefix test. -/
def strStartsWith (s p : String) : Bool := p.data.isPrefixOf s.data

/-- Drop the first `n` characters. -/
def strDropLeft (s : String) (n : Nat) : String := ⟨s.data.drop n⟩

/-- Value of a little-endian-processed decimal digit list (accumulator form). -/
def digitsVal : List Char → Nat → Nat
  | [], acc => acc
  | c :: cs, acc => digitsVal cs (acc * 10 + (c.toNat - '0'.toNat))

/-- Parse a non-empty all-digit string as a natural number. -/
def strToNat? (s : String) : Option Nat :=
  if s.data ≠ [] ∧ s.data.all Char.isDigit then some (digitsVal s.data 0)
  else none

/-- Split a character list at every occurrence of `sep` (JS
`String.prototype.split` with a single-character separator: no empty-list
collapsing, `""` splits to `[""]`). -/
def splitChar (sep : Char) : List Char → List (List Char)
  | [] => [[]]
  | c :: cs =>
    let r := splitChar sep cs
    if c = sep then [] :: r
    else
      match r with
      | h :: t => (c :: h) :: t
      | [] => [[c]]

/-- JS `s.split(sep)` for a single-character separator. -/
def strSplitOn (s : String) (sep : Char) : List String :=
  (splitChar sep s.data).map (fun l => ⟨l⟩)

/-- JS `parseInt(s, 10)`: skip leading whitespace, optional sign, then take the
longest prefix of decimal digits; `none` models `NaN`.  (The hexadecimal
`"0x"` form is not modelled; the flow only ever parses decimal chat input.) -/
def jsParseInt (s : String) : Option Int :=
  let t := jsTrim s
  let neg := strStartsWith t "-"
  let core := if neg ∨ strStartsWith t "+" then strDropLeft t 1 else t
  let digits := core.data.takeWhile Char.isDigit
  if digits = [] then none
  else some ((if neg then -1 else 1) * (digitsVal digits 0 : Nat))

/-- String containment, used to state that a chat message mentions a token:
`strContains h n` holds when `n` occurs inside `h`. -/
def strContains (h n : String) : Prop := ∃ a b : String, h = a ++ n ++ b

/-! ## HTML helpers (src/utils/html.mjs) -/

def bold (t : String) : String := "<b>" ++ t ++ "</b>"

def italic (t : String) : String := "<i>" ++ t ++ "</i>"

def code (t : String) : String := "<code>" ++ t ++ "</code>"

def link (text url : String) : String :=
  "<a href=\"" ++ url ++ "\">" ++ text ++ "</a>"

def br (count : Nat := 1) : String :=
  String.join (List.replicate count "<br/>")

def bulletItem (t : String) : String := "• " ++ t

def bulletList (items : List String) : String :=
  String.intercalate "<br/>" (items.map bulletItem)

/-- The message builder of src/utils/html.mjs (`createMessage()` /
`MessageBuilder`): an ordered list of HTML fragments joined by `build()`. -/
structure MessageBuilder where
  parts : List String := []
  deriving DecidableEq, Repr

def MessageBuilder.add (b : MessageBuilder) (content : String) : MessageBuilder :=
  { parts := b.parts ++ [content] }

def MessageBuilder.addLine (b : MessageBuilder) (content : String := "") :
    MessageBuilder :=
  b.add (content ++ "<br/>")

def MessageBuilder.addBulletList (b : MessageBuilder) (items : List String) :
    MessageBuilder :=
  b.add (bulletList items ++ "<br/>")

def MessageBuilder.addNote (b : MessageBuilder) (text : String) : MessageBuilder :=
  b.add (italic text ++ "<br/>")

def MessageBuilder.addBreak (b : MessageBuilder) (count : Nat := 1) :
    MessageBuilder :=
  b.add (br count)

def MessageBuilder.build (b : MessageBuilder) : String :=
  b.parts.foldl (fun acc p => acc ++ p) ""

def createMessage : MessageBuilder := {}

/-! ## Data model -/

/-- A selectable option of a choice field (`{id, name}` in `validValues`). -/
structure Choice where
  id : String
  name : String
  deriving DecidableEq, Repr

/-- Values stored in `fieldCollection.collectedValues`.  JS stores `null`,
strings, numbers, `{id}` objects (select) and arrays of `{id}` objects
(multiselect); `undefined` is represented by absence from the map. -/
inductive Value where
  | vnull
  | vstr (s : String)
  | vnum (n : Int)
  | vid (id : String)
  | vids (ids : List String)
  deriving DecidableEq, Repr

/-- JS truthiness of a stored value (used by `fieldValues.summary || ...`). -/
def valueTruthy : Value → Bool
  | .vnull => false
  | .vstr s => s ≠ ""
  | .vnum n => n ≠ 0
  | .vid _ => true
  | .vids _ => true

/-- JS template-literal stringification `${value}` / `String(value)` of a
stored value: strings verbatim, numbers in decimal, `null` as `"null"`,
plain objects as `"[object Object]"`, arrays element-wise joined by `,`. -/
def valueToString : Value → String
  | .vnull => "null"
  | .vstr s => s
  | .vnum n => toString n
  | .vid _ => "[object Object]"
  | .vids ids => String.intercalate "," (ids.map (fun _ => "[object Object]"))

/-- A form answer `{text} | {choices: [ids]}`; a stored JS `null` answer is
represented as `none` at the map-value level (`Option FormAnswer`). -/
inductive FormAnswer where
  | text (s : String)
  | choices (ids : List String)
  deriving DecidableEq, Repr

/-- Origin of a merged field: service-desk portal schema or ProForma form. -/
inductive FieldSource where
  | portal
  | form
  deriving DecidableEq, Repr

/-- One entry of the merged `fieldCollection.fields` sequence. -/
structure Field where
  source : FieldSource
  fieldId : String
  name : String
  required : Bool
  ftype : String
  validValues : List Choice := []
  formQuestionId : Option String := none
  isTableField : Bool := false
  rowNumber : Option Nat := none
  deriving DecidableEq, Repr

/-- A portal field as returned by `getPortalFields` (already filtered to
visible fields by the service); `ftype` is the resolved field-type tag. -/
structure PortalField where
  fieldId : String
  name : String
  required : Bool
  ftype : String := "text"
  validValues : List Choice := []
  deriving DecidableEq, Repr

/-- A form question as produced by `extractFormQuestions`. -/
structure FormQuestion where
  id : String
  label : String
  qtype : String := "text"
  required : Bool := false
  description : Option String := none
  choices : List Choice := []
  jiraField : Option String := none
  deriving DecidableEq, Repr

/-- The per-conversation field-collection record created by
`handleRequestType`.  `formAnswers` maps question id to an answer or to a
stored JS `null` (`none`). -/
structure FieldCollection where
  currentFieldIndex : Nat
  fields : List Field
  collectedValues : List (String × Value) := []
  formAnswers : List (String × Option FormAnswer) := []
  awaitingCustomValue : Bool := false
  deriving DecidableEq, Repr

structure ServiceDesk where
  id : String
  projectKey : String
  projectName : String
  deriving DecidableEq, Repr

structure PortalGroup where
  id : String
  name : String
  deriving DecidableEq, Repr

/-- Upstream `groupIds` entries are inconsistently typed: strings or numbers. -/
inductive GroupIdVal where
  | str (s : String)
  | num (n : Int)
  deriving DecidableEq, Repr

structure RequestType where
  id : String
  name : String
  groupIds : Option (List GroupIdVal) := none
  deriving DecidableEq, Repr

/-- A question definition inside a form template design (`design.questions`). -/
structure FormQuestionDef where
  label : Option String := none
  name : Option String := none
  qtype : Option String := none
  rpiRequired : Bool := false
  description : Option String := none
  choices : List Choice := []
  jpiMappedJiraField : Option String := none
  deriving DecidableEq, Repr

structure FormSection where
  questionIds : Option (List String) := none
  deriving DecidableEq, Repr

structure FormDesign where
  questions : List (String × FormQuestionDef) := []
  sections : Option (List FormSection) := none
  deriving DecidableEq, Repr

/-- A ProForma form template.  `nestedId` models
`formTemplate.formTemplate?.id`, the third id fallback used by
`attachAndFillForm`. -/
structure FormTemplate where
  id : Option String := none
  templateId : Option String := none
  nestedId : Option String := none
  design : Option FormDesign := none
  deriving DecidableEq, Repr

/-- The state-machine step (`state.step` string in JS). -/
inductive Step where
  | select_service_desk
  | select_portal_group
  | select_request_type
  | collect_field
  | confirm
  deriving DecidableEq, Repr

/-- The per-conversation state record.  Absent / `null` JS keys are `none`;
`getState` on an unknown conversation returns the all-default record `{}`. -/
structure ConvState where
  awaitingITSMDetails : Bool := false
  step : Option Step := none
  serviceDesks : Option (List ServiceDesk) := none
  portalGroups : Option (List PortalGroup) := none
  requestTypes : Option (List RequestType) := none
  selectedServiceDesk : Option ServiceDesk := none
  selectedPortalGroup : Option PortalGroup := none
  filteredRequestTypes : Option (List RequestType) := none
  selectedRequestType : Option RequestType := none
  formTemplate : Option FormTemplate := none
  fieldCollection : Option FieldCollection := none
  requestTypeFieldsCache : Option (List (String × List PortalField)) := none
  requestTypeFormsCache : Option (List (String × Option FormTemplate)) := none
  deriving DecidableEq, Repr

/-! ## Conversation state store (src/state/conversation.mjs) -/

/-- The process-wide `conversationStates` map, as an association list with
unique keys. -/
abbrev Store := List (String × ConvState)

/-- `conversationStates.get(id)` before the `|| {}` default. -/
def getStateOpt (st : Store) (conversationId : String) : Option ConvState :=
  (st.find? (fun kv => kv.1 = conversationId)).map (fun kv => kv.2)

/-- `getState`: the stored record or a fresh empty object. -/
def getState (st : Store) (conversationId : String) : ConvState :=
  (getStateOpt st conversationId).getD {}

/-- `setState`: `conversationStates.set(id, state)`. -/
def setState (st : Store) (conversationId : String) (s : ConvState) : Store :=
  (conversationId, s) :: st.filter (fun kv => kv.1 ≠ conversationId)

/-- `deleteState`: `conversationStates.delete(id)`. -/
def deleteState (st : Store) (conversationId : String) : Store :=
  st.filter (fun kv => kv.1 ≠ conversationId)

/-! ## List selection (src/utils/helpers.mjs `selectFromList`) -/

/-- `selectFromList(input, list, keyField)`: a 1-based numeric index into the
list, else (when a key extractor is given) an exact case-insensitive match on
that key; `none` on an empty list or no match. -/
def selectFromList {α : Type} (input : String) (list : List α)
    (key : Option (α → String)) : Option α :=
  if list.length = 0 then none
  else
    let byKey : Option α :=
      match key with
      | some k => list.find? (fun item => jsToLower (k item) = jsToLower input)
      | none => none
    match jsParseInt input with
    | some n =>
        if 0 ≤ n - 1 ∧ n - 1 < (list.length : Int) then list.get? (n - 1).toNat
        else byKey
    | none => byKey

/-! ## Form-question extraction (src/services/itsm.service.mjs) -/

/-- JS `a || b || c` over possibly-missing strings: the first present,
non-empty (truthy) one. -/
def jsOrStr (a : Option String) : Option String :=
  match a with
  | some s => if s = "" then none else some s
  | none => none

/-- `extractFormQuestions(formTemplate)`: flatten the ordered question ids of
the design's sections (falling back to the key order of `design.questions`)
into `FormQuestion` records.  The JS fallback `formTemplate.design ||
formTemplate` is modelled by templates without a design having no questions. -/
def extractFormQuestions (ft : FormTemplate) : List FormQuestion :=
  match ft.design with
  | none => []
  | some design =>
    let questions := design.questions
    if questions.length = 0 then []
    else
      let sections := design.sections.getD []
      let orderedIds := sections.flatMap (fun s => s.questionIds.getD [])
      let questionIds :=
        if orderedIds.length > 0 then orderedIds
        else questions.map (fun kv => kv.1)
      questionIds.filterMap (fun qid =>
        match lookupKey questions qid with
        | none => none
        | some q =>
          some { id := qid,
                 label := ((jsOrStr q.label).orElse (fun _ => jsOrStr q.name)).getD qid,
                 qtype := q.qtype.getD "text",
                 required := q.rpiRequired,
                 description := q.description,
                 choices := q.choices,
                 jiraField := q.jpiMappedJiraField })

/-! ## Field reconciliation

Modelled from the spec: `prepareFieldsForCollection` lives in
src/components/itsm/fieldHandlers.mjs, which is imported by
src/components/itsm/index.mjs but absent from the repository sources.  The
definitions below follow specification section 4.1 step by step. -/

/-- Case-insensitive, trimmed label normalisation used throughout
reconciliation (spec 4.1 steps 1-4). -/
def normLabel (s : String) : String := jsToLower (jsTrim s)

/-- Modelled from the spec: step 1 of 4.1 — a normalised-label → question-id
map from the form questions, first occurrence winning on duplicates. -/
def buildLabelMap (qs : List FormQuestion) : List (String × String) :=
  qs.foldl
    (fun m q =>
      let k := normLabel q.label
      if (m.find? (fun kv => kv.1 = k)).isSome then m else m ++ [(k, q.id)])
    []

/-- Modelled from the spec: step 2 of 4.1 — emit a `source="portal"` field,
cross-referencing the form question whose label matches. -/
def portalToField (labelMap : List (String × String)) (pf : PortalField) : Field :=
  { source := .portal,
    fieldId := pf.fieldId,
    name := pf.name,
    required := pf.required,
    ftype := pf.ftype,
    validValues := pf.validValues,
    formQuestionId := lookupKey labelMap (normLabel pf.name) }

/-- Modelled from the spec: step 4 of 4.1 — the `validValues` of a form-only
field: drop choices whose label starts with "other" (case-insensitive), then
append the synthetic `__other__` entry when any choices remain. -/
def buildFormValidValues (choices : List Choice) : List Choice :=
  let filtered := choices.filter (fun c => ¬ (strStartsWith (jsToLower c.name) "other"))
  if filtered.length > 0 then
    filtered ++ [{ id := "__other__", name := "Other (type custom value)" }]
  else filtered

/-- Modelled from the spec: resolved input type of a form question (section
4.3 uses the same type vocabulary for both sources; form dropdown/radio map
to "select", checkbox to "multiselect", date to "date", the rest to text). -/
def formFieldType (q : FormQuestion) : String :=
  if q.qtype = "cd" ∨ q.qtype = "rs" then "select"
  else if q.qtype = "cs" ∨ q.qtype = "cm" then "multiselect"
  else if q.qtype = "dt" then "date"
  else "text"

/-- Modelled from the spec: the field emitted for the `n`-th occurrence
(1-based) of a surviving form-question label — from the second occurrence on
it is a row of a table field, with the row number in the display name. -/
def mkFormOnlyField (q : FormQuestion) (n : Nat) : Field :=
  { source := .form,
    fieldId := "form_" ++ q.id,
    name := if 2 ≤ n then q.label ++ " (Row " ++ toString n ++ ")" else q.label,
    required := q.required,
    ftype := formFieldType q,
    validValues := buildFormValidValues q.choices,
    formQuestionId := some q.id,
    isTableField := decide (2 ≤ n),
    rowNumber := if 2 ≤ n then some n else none }

/-- Modelled from the spec: step 4 of 4.1 — walk the form questions, skipping
labels already covered by portal fields, keeping a per-label row counter. -/
def formOnlyGo (portalLabels : List String) :
    List FormQuestion → List (String × Nat) → List Field
  | [], _ => []
  | q :: rest, seen =>
    let k := normLabel q.label
    if portalLabels.contains k then formOnlyGo portalLabels rest seen
    else
      let n := ((lookupKey seen k).getD 0) + 1
      mkFormOnlyField q n :: formOnlyGo portalLabels rest (insertKey seen k n)

/-- Modelled from the spec: step 3 of 4.1 — the set of portal-field labels
(case-insensitive) used to suppress matching form questions. -/
def portalLabelsOf (portalFields : List PortalField) : List String :=
  portalFields.map (fun pf => normLabel pf.name)

/-- Modelled from the spec: `prepareFieldsForCollection(portalFields,
formQuestions)` (section 4.1) — portal-derived fields first in upstream
order, then form-only fields in upstream order with duplicate labels
row-numbered. -/
def prepareFieldsForCollection (portalFields : List PortalField)
    (formQuestions : List FormQuestion) : List Field :=
  let labelMap := buildLabelMap formQuestions
  portalFields.map (portalToField labelMap)
    ++ formOnlyGo (portalLabelsOf portalFields) formQuestions []

/-! ## Upstream environment and flow results -/

structure CreateInput where
  serviceDeskId : String
  requestTypeId : String
  requestFieldValues : List (String × Value)
  deriving DecidableEq, Repr

structure CreateResult where
  issueId : String
  issueKey : String
  deriving DecidableEq, Repr

structure AttachedForm where
  id : Option String := none
  name : Option String := none
  deriving DecidableEq, Repr

/-- The upstream service clients as pure functions: each asynchronous call of
the JS code is modelled by one field, `Except` carrying the rejection
message.  `getRequestTypeForm` is post-`catch` (the handler maps failures to
`null`).  `elapsed` stands for the wall-clock `formatElapsedTime` string. -/
structure ITSMEnv where
  getPortalGroups : String → Except String (List PortalGroup)
  getRequestTypes : String → Except String (List RequestType)
  getPortalFields : String → String → Except String (List PortalField)
  getRequestTypeForm : String → String → Option FormTemplate
  createRequest : CreateInput → Except String CreateResult
  getPortalUrl : String → String
  attachFormToIssue : String → String → Except String AttachedForm
  setFormExternal : String → String → Except String Unit
  saveFormAnswers : String → String → List (String × FormAnswer) → Except String Unit
  elapsed : String

/-- Result of one inbound message: the updated store, the text messages sent
(typing indicators omitted), and the create-request calls issued upstream. -/
structure FlowResult where
  store : Store
  messages : List String
  createCalls : List CreateInput := []
  deriving DecidableEq, Repr

/-! ## Display placeholders (src/components/itsm/display.mjs)

The display helpers build long HTML menus whose content no verified claim
depends on; each is represented by a distinct placeholder token so that
which screen was shown remains observable. -/

def showServiceDesksMsg (_ : ConvState) : String := "[show service desks]"

def showPortalGroupsMsg (_ : ConvState) : String := "[show portal groups]"

def showRequestTypesMsg (_ : ConvState) : String := "[show request types]"

def showFormOverviewMsg (_ : ConvState) : String := "[show form overview]"

def showFieldMsg (_ : ConvState) : String := "[show current field]"

def showConfirmationMsg (_ : ConvState) : String := "[show confirmation]"

/-! ## Back navigation (src/components/itsm/index.mjs `goBack`) -/

/-- `goBack(bot, context, state, conversationId)`: the `backMap` dispatch.
In the `collect_field` branch the JS reads `fc.fields[fc.currentFieldIndex]`
after decrementing; an out-of-range cursor (impossible under the cursor
invariant) is modelled as clearing nothing. -/
def goBack (state : ConvState) (conversationId : String) (store : Store) :
    FlowResult :=
  match state.step with
  | some .select_service_desk =>
    { store := deleteState store conversationId,
      messages := ["Request cancelled."] }
  | some .select_portal_group =>
    let st2 := { state with
      step := some .select_service_desk,
      selectedServiceDesk := none,
      portalGroups := none,
      requestTypes := none }
    { store := setState store conversationId st2,
      messages := [showServiceDesksMsg st2] }
  | some .select_request_type =>
    let st2 := { state with
      step := some .select_portal_group,
      selectedPortalGroup := none,
      filteredRequestTypes := none }
    { store := setState store conversationId st2,
      messages := [showPortalGroupsMsg st2] }
  | some .collect_field =>
    match state.fieldCollection with
    | some fc =>
      if 0 < fc.currentFieldIndex then
        let newIdx := fc.currentFieldIndex - 1
        let cleared :=
          match fc.fields.get? newIdx with
          | some f => eraseKey fc.collectedValues f.fieldId
          | none => fc.collectedValues
        let fc2 := { fc with currentFieldIndex := newIdx, collectedValues := cleared }
        let st2 := { state with fieldCollection := some fc2 }
        { store := setState store conversationId st2,
          messages := [showFieldMsg st2] }
      else
        let st2 := { state with
          step := some .select_request_type,
          selectedRequestType := none,
          fieldCollection := none }
        { store := setState store conversationId st2,
          messages := [showRequestTypesMsg st2] }
    | none =>
      { store := store, messages := [] }
  | some .confirm =>
    match state.fieldCollection with
    | some fc =>
      if 0 < fc.fields.length then
        let newIdx := fc.fields.length - 1
        let cleared :=
          match fc.fields.get? newIdx with
          | some f => eraseKey fc.collectedValues f.fieldId
          | none => fc.collectedValues
        let fc2 := { fc with currentFieldIndex := newIdx, collectedValues := cleared }
        let st2 := { state with
          step := some .collect_field,
          fieldCollection := some fc2 }
        { store := setState store conversationId st2,
          messages := [showFieldMsg st2] }
      else
        let st2 := { state with step := some .select_request_type }
        { store := setState store conversationId st2,
          messages := [showRequestTypesMsg st2] }
    | none =>
      let st2 := { state with step := some .select_request_type }
      { store := setState store conversationId st2,
        messages := [showRequestTypesMsg st2] }
  | none =>
    { store := store, messages := [] }

/-! ## Selection handlers (src/components/itsm/index.mjs) -/

/-- `handleServiceDesk`: numeric or project-key selection, then the parallel
portal-group / request-type fetch; either rejection surfaces as `Error: msg`
via the `catch`. -/
def handleServiceDesk (env : ITSMEnv) (text : String) (state : ConvState)
    (conversationId : String) (store : Store) : FlowResult :=
  let desks := state.serviceDesks.getD []
  match selectFromList text desks (some ServiceDesk.projectKey) with
  | none =>
    { store := store,
      messages := ["Invalid selection. Enter 1-" ++ toString desks.length ++ "."] }
  | some selected =>
    match env.getPortalGroups selected.id, env.getRequestTypes selected.id with
    | .error e, _ => { store := store, messages := ["Error: " ++ e] }
    | .ok _, .error e => { store := store, messages := ["Error: " ++ e] }
    | .ok portalGroups, .ok requestTypes =>
      if portalGroups.length = 0 then
        { store := store, messages := ["No portal groups found."] }
      else
        let st2 := { state with
          selectedServiceDesk := some selected,
          portalGroups := some portalGroups,
          requestTypes := some requestTypes,
          step := some .select_portal_group }
        { store := setState store conversationId st2,
          messages := [showPortalGroupsMsg st2] }

/-- Group membership test of `handlePortalGroup`:
`rt.groupIds?.includes(selected.id.toString()) ||
rt.groupIds?.includes(parseInt(selected.id))` — both the string form and the
integer-parsed form of the group id are checked. -/
def groupIdMatches (groupIds : List GroupIdVal) (groupId : String) : Bool :=
  groupIds.contains (.str groupId) ||
    (match jsParseInt groupId with
     | some n => groupIds.contains (.num n)
     | none => false)

/-- The request-type filter applied on portal-group selection; a request type
without a `groupIds` list never matches (`undefined?.includes` is falsy). -/
def filterRequestTypes (requestTypes : List RequestType) (groupId : String) :
    List RequestType :=
  requestTypes.filter (fun rt =>
    match rt.groupIds with
    | some gids => groupIdMatches gids groupId
    | none => false)

/-- `handlePortalGroup`: numeric selection, filter the cached request types by
group membership, store the (possibly empty) filtered list and advance to
`select_request_type`. -/
def handlePortalGroup (text : String) (state : ConvState)
    (conversationId : String) (store : Store) : FlowResult :=
  let groups := state.portalGroups.getD []
  match selectFromList text groups (none : Option (PortalGroup → String)) with
  | none =>
    { store := store,
      messages := ["Invalid selection. Enter 1-" ++ toString groups.length ++ "."] }
  | some selected =>
    let filtered := filterRequestTypes (state.requestTypes.getD []) selected.id
    let st2 := { state with
      selectedPortalGroup := some selected,
      filteredRequestTypes := some filtered,
      step := some .select_request_type }
    { store := setState store conversationId st2,
      messages := [showRequestTypesMsg st2] }

/-! ## Request-type selection (src/components/itsm/index.mjs `handleRequestType`) -/

/-- The portal fields used for collection: the cache entry rendered while
listing request types if present (an empty cached array is truthy and is
used), otherwise a `getPortalFields` fetch. -/
def resolvePortalFields (env : ITSMEnv) (state : ConvState)
    (selected : RequestType) : Except String (List PortalField) :=
  match lookupKey (state.requestTypeFieldsCache.getD []) selected.id with
  | some fields => .ok fields
  | none =>
    env.getPortalFields ((state.selectedServiceDesk.map (fun d => d.id)).getD "") selected.id

/-- The form template used for collection: the cache entry if the key is
present (a cached `null` counts as present and suppresses the fetch),
otherwise a `getRequestTypeForm` fetch whose failure was already caught to
`null`. -/
def resolveFormTemplate (env : ITSMEnv) (state : ConvState)
    (selected : RequestType) : Option FormTemplate :=
  match lookupKey (state.requestTypeFormsCache.getD []) selected.id with
  | some cached => cached
  | none =>
    env.getRequestTypeForm ((state.selectedServiceDesk.map (fun d => d.id)).getD "") selected.id

/-- The notice sent when the merged field list is empty. -/
def noFieldsMsg : String :=
  "<i>No form fields found for this request type.</i><br/>" ++
  "<i>The request will be created with default values only.</i>"

/-- `handleRequestType`: numeric selection into `filteredRequestTypes || []`,
fetch/merge the fields, then go straight to `confirm` when the merged list is
empty, else start `collect_field`.  A portal-fields fetch rejection surfaces
as `Error: msg` via the `catch`. -/
def handleRequestType (env : ITSMEnv) (text : String) (state : ConvState)
    (conversationId : String) (store : Store) : FlowResult :=
  let types := state.filteredRequestTypes.getD []
  match selectFromList text types (none : Option (RequestType → String)) with
  | none =>
    { store := store,
      messages := ["Invalid selection. Enter 1-" ++ toString types.length ++ "."] }
  | some selected =>
    match resolvePortalFields env state selected with
    | .error e => { store := store, messages := ["Error: " ++ e] }
    | .ok portalFields =>
      let formTemplate := resolveFormTemplate env state selected
      let formQuestions :=
        match formTemplate with
        | some ft => extractFormQuestions ft
        | none => []
      let allFields := prepareFieldsForCollection portalFields formQuestions
      let fc : FieldCollection :=
        { currentFieldIndex := 0, fields := allFields,
          collectedValues := [], formAnswers := [] }
      let base := { state with
        selectedRequestType := some selected,
        formTemplate := formTemplate,
        fieldCollection := some fc }
      if allFields.length = 0 then
        let st2 := { base with step := some .confirm }
        { store := setState store conversationId st2,
          messages := [noFieldsMsg, showConfirmationMsg st2] }
      else
        let st2 := { base with step := some .collect_field }
        { store := setState store conversationId st2,
          messages := [showFormOverviewMsg st2, showFieldMsg st2] }

/-! ## Submission (src/components/itsm/index.mjs `createRequest` and helpers) -/

/-- The emptiness test of `getMissingRequiredFields`:
`value === null || value === undefined || value === ''`. -/
def valueIsMissing : Option Value → Bool
  | none => true
  | some .vnull => true
  | some (.vstr s) => s = ""
  | some _ => false

/-- The form-side lookup `formAnswer?.text || formAnswer?.choices?.[0]`:
an empty text falls through to the (absent) choices, a stored `null` answer
yields `undefined`. -/
def formAnswerValue (fa : Option (Option FormAnswer)) : Option String :=
  match fa with
  | none => none
  | some none => none
  | some (some (.text s)) => if s = "" then none else some s
  | some (some (.choices l)) => l.head?

/-- Whether a field counts as missing for submission, per source. -/
def fieldMissingValue (fc : FieldCollection) (f : Field) : Bool :=
  match f.source with
  | .form =>
    let v :=
      match f.formQuestionId with
      | some qid => formAnswerValue (lookupKey fc.formAnswers qid)
      | none => none
    v = none ∨ v = some ""
  | .portal => valueIsMissing (lookupKey fc.collectedValues f.fieldId)

/-- `getMissingRequiredFields(fc)`: the names of required fields whose stored
value is `null`, `undefined` or `''` (empty list when `fc` is absent). -/
def getMissingRequiredFields (fc : Option FieldCollection) : List String :=
  match fc with
  | none => []
  | some fc =>
    (fc.fields.filter (fun f => f.required && fieldMissingValue fc f)).map
      (fun f => f.name)

/-- `getCollectedFieldValues(fc)`: the collected portal values with `null` and
empty-string entries dropped. -/
def getCollectedFieldValues (fc : Option FieldCollection) : List (String × Value) :=
  match fc with
  | none => []
  | some fc =>
    fc.collectedValues.filter (fun kv => kv.2 ≠ .vnull ∧ kv.2 ≠ .vstr "")

/-- The abort message listing the missing required fields. -/
def missingFieldsMsg (missingRequired : List String) : String :=
  (((((createMessage.addLine
    (bold "Cannot submit - missing required fields:")).addBreak).addBulletList
      missingRequired).addBreak).addNote
        ("Type " ++ code "back" ++ " to edit the form.")).build

/-- `buildFormAnswers(fc)`: the explicit non-null form answers, then portal
values re-expressed as text answers for cross-referenced questions
(overwriting on key collision, as JS object assignment does). -/
def buildFormAnswers (fc : FieldCollection) : List (String × FormAnswer) :=
  let fromAnswers : List (String × FormAnswer) :=
    fc.formAnswers.filterMap (fun kv => kv.2.map (fun a => (kv.1, a)))
  fc.fields.foldl
    (fun acc f =>
      if f.source = .portal then
        match f.formQuestionId with
        | some qid =>
          match lookupKey fc.collectedValues f.fieldId with
          | some v =>
            if v ≠ .vnull ∧ v ≠ .vstr "" then
              insertKey acc qid (.text (valueToString v))
            else acc
          | none => acc
        | none => acc
      else acc)
    fromAnswers

/-- `attachAndFillForm`: resolve the template id through the three fallbacks,
attach, set external, save the merged answers; every upstream failure is
caught and reported as the returned inline string. -/
def attachAndFillForm (env : ITSMEnv) (result : CreateResult)
    (ft : FormTemplate) (fc : FieldCollection) : String :=
  let issueId := result.issueId
  let formTemplateId :=
    ((jsOrStr ft.id).orElse (fun _ => jsOrStr ft.templateId)).orElse
      (fun _ => jsOrStr ft.nestedId)
  match formTemplateId with
  | none => italic "Form template ID not found."
  | some ftid =>
    match env.attachFormToIssue issueId ftid with
    | .error e =>
      italic ("Form could not be attached: " ++ e ++ ". Please fill in the portal.")
    | .ok attachedForm =>
      match attachedForm.id with
      | none => italic "Form could not be attached."
      | some formId =>
        match env.setFormExternal issueId formId with
        | .error e =>
          italic ("Form could not be attached: " ++ e ++ ". Please fill in the portal.")
        | .ok _ =>
          let validAnswers := buildFormAnswers fc
          if 0 < validAnswers.length then
            match env.saveFormAnswers issueId formId validAnswers with
            | .error e =>
              italic ("Form could not be attached: " ++ e ++ ". Please fill in the portal.")
            | .ok _ => "Form attached and filled"
          else "Form attached"

/-- The summary shown in the success message:
`fieldValues.summary || state.selectedRequestType.name` (JS truthiness). -/
def summaryOf (fieldValues : List (String × Value)) (rt : RequestType) : String :=
  match lookupKey fieldValues "summary" with
  | some v => if valueTruthy v then valueToString v else rt.name
  | none => rt.name

/-- The success message of `createRequest`: one builder part per source
builder call (`addLine`/`addBreak`/`add`), with the optional form-result line
in the middle. -/
def successMsg (env : ITSMEnv) (issueKey summary : String)
    (formLine : List String) (url : String) : String :=
  MessageBuilder.build { parts :=
    ([("✅ " ++ bold "Request Created!") ++ "<br/>", br 1,
      (bold issueKey ++ ": " ++ summary) ++ "<br/>"]
      ++ formLine.map (fun l => l ++ "<br/>")
      ++ [br 1, link "View in Portal" url ++ "<br/>", br 2,
          "<i style=\"color:gray\">Completed in " ++ env.elapsed ++ "</i>"]) }

/-- The optional form-handling line of the success message: present exactly
when a form template is associated with the request type. -/
def formLineOf (env : ITSMEnv) (res : CreateResult) (state : ConvState) :
    List String :=
  match state.formTemplate with
  | some ft => [attachAndFillForm env res ft
      (state.fieldCollection.getD { currentFieldIndex := 0, fields := [] })]
  | none => []

/-- The create-request payload built from the selections and the collected
(non-empty) portal values. -/
def mkCreateInput (desk : ServiceDesk) (rt : RequestType)
    (fieldValues : List (String × Value)) : CreateInput :=
  { serviceDeskId := desk.id, requestTypeId := rt.id,
    requestFieldValues := fieldValues }

/-- The failure message of `createRequest`. -/
def failureMsg (env : ITSMEnv) (e : String) : String :=
  ((((createMessage.addLine
    ("❌ Failed to create: " ++ e)).add
      ("<i style=\"color:gray\">Failed after " ++ env.elapsed ++ "</i>")).addBreak 2).addNote
        ("Type " ++ code "yes" ++ " to retry or " ++ code "back" ++ " to edit.")).build

/-- `createRequest(bot, context, state, conversationId)`: validate required
fields, call the upstream create endpoint, then either report success (with
best-effort form attachment) and delete the state, or report the failure and
keep the state.  A `null` selected desk / request type would raise a
TypeError inside the `try` and land in the same `catch` branch. -/
def createRequestFlow (env : ITSMEnv) (state : ConvState)
    (conversationId : String) (store : Store) : FlowResult :=
  let fc := state.fieldCollection
  let missingRequired := getMissingRequiredFields fc
  if 0 < missingRequired.length then
    { store := store, messages := [missingFieldsMsg missingRequired] }
  else
    let fieldValues := getCollectedFieldValues fc
    match state.selectedServiceDesk, state.selectedRequestType with
    | some desk, some rt =>
      let input := mkCreateInput desk rt fieldValues
      match env.createRequest input with
      | .ok result =>
        let issueKey := result.issueKey
        let url := env.getPortalUrl issueKey
        let summary := summaryOf fieldValues rt
        let formLine := formLineOf env result state
        { store := deleteState store conversationId,
          messages := [successMsg env issueKey summary formLine url],
          createCalls := [input] }
      | .error e =>
        { store := store, messages := [failureMsg env e], createCalls := [input] }
    | _, _ =>
      { store := store,
        messages := [failureMsg env "Cannot read properties of null"] }

/-- `handleConfirm`: `yes`/`y`/`retry` submit, `no`/`n` cancel, anything else
re-prompts.  Note the source lowercases but does not trim here. -/
def handleConfirm (env : ITSMEnv) (text : String) (state : ConvState)
    (conversationId : String) (store : Store) : FlowResult :=
  let cmd := jsToLower text
  if cmd = "yes" ∨ cmd = "y" ∨ cmd = "retry" then
    createRequestFlow env state conversationId store
  else if cmd = "no" ∨ cmd = "n" then
    { store := deleteState store conversationId,
      messages := ["Request cancelled."] }
  else
    { store := store,
      messages := [italic ("Type " ++ code "yes" ++ ", " ++ code "no" ++
        ", or " ++ code "back" ++ ".")] }

/-! ## Field input handling

Modelled from the spec: `handleField` lives in
src/components/itsm/fieldHandlers.mjs, which is imported by
src/components/itsm/index.mjs but absent from the repository sources.  The
definitions below follow specification section 4.3, evaluating the nine
cases in the stated precedence order. -/

/-- Modelled from the spec: exact `YYYY-MM-DD` date format (case 6 of 4.3). -/
def isYMD (s : String) : Bool :=
  match s.toList with
  | [a, b, c, d, h1, e, f, h2, g, h] =>
    a.isDigit && b.isDigit && c.isDigit && d.isDigit && h1 = '-' &&
    e.isDigit && f.isDigit && h2 = '-' && g.isDigit && h.isDigit
  | _ => false

/-- Modelled from the spec: `YYYY-MM-DD` optionally followed by ` HH:MM`
(case 7 of 4.3). -/
def isYMDHM (s : String) : Bool :=
  isYMD s ||
    (match s.toList with
     | [a, b, c, d, h1, e, f, h2, g, h, sp, i, j, cl, k, l] =>
       a.isDigit && b.isDigit && c.isDigit && d.isDigit && h1 = '-' &&
       e.isDigit && f.isDigit && h2 = '-' && g.isDigit && h.isDigit &&
       sp = ' ' && i.isDigit && j.isDigit && cl = ':' && k.isDigit && l.isDigit
     | _ => false)

/-- Modelled from the spec: a finite decimal number, optionally signed and
with an optional fractional part (case 8 of 4.3). -/
def isFiniteNumber (s : String) : Bool :=
  let t := jsTrim s
  let core := if strStartsWith t "-" ∨ strStartsWith t "+" then strDropLeft t 1 else t
  match splitChar '.' core.data with
  | [w] => w ≠ [] && w.all Char.isDigit
  | [w, f] => w ≠ [] && f ≠ [] && (w ++ f).all Char.isDigit
  | _ => false

/-- Modelled from the spec: parse a comma-separated multiselect input against
`n` choices — every trimmed entry must be a valid 1-based index, otherwise
the whole input is rejected (`none`). -/
def parseSelections : List String → Nat → Option (List Nat)
  | [], _ => some []
  | p :: rest, n =>
    match strToNat? p with
    | some i =>
      if 1 ≤ i ∧ i ≤ n then (parseSelections rest n).map (fun l => i :: l)
      else none
    | none => none

/-- Modelled from the spec: store one formatted value on the field's own
side — portal values into `collectedValues`, form answers into
`formAnswers`. -/
def storeValue (fc : FieldCollection) (field : Field) (pv : Value)
    (fa : Option FormAnswer) : FieldCollection :=
  match field.source with
  | .portal =>
    { fc with collectedValues := insertKey fc.collectedValues field.fieldId pv }
  | .form =>
    match field.formQuestionId with
    | some qid => { fc with formAnswers := insertKey fc.formAnswers qid fa }
    | none => fc

/-- Modelled from the spec: after a successful store, persist the state and
advance the cursor; when the cursor reaches the end of the field list the
step becomes `confirm`, else the next field is shown. -/
def advanceAfterStore (state : ConvState) (fc2 : FieldCollection)
    (conversationId : String) (store : Store) : FlowResult :=
  let idx2 := fc2.currentFieldIndex + 1
  let fc3 := { fc2 with currentFieldIndex := idx2 }
  if idx2 = fc3.fields.length then
    let st2 := { state with step := some .confirm, fieldCollection := some fc3 }
    { store := setState store conversationId st2,
      messages := [showConfirmationMsg st2] }
  else
    let st2 := { state with fieldCollection := some fc3 }
    { store := setState store conversationId st2,
      messages := [showFieldMsg st2] }

/-- Modelled from the spec: rejection message of a required field left empty. -/
def emptyRequiredMsg : String :=
  italic "This field is required. Please enter a value."

/-- Modelled from the spec: rejection message of `skip` on a required field. -/
def requiredSkipMsg : String :=
  italic "This field is required and cannot be skipped."

/-- Modelled from the spec: single-select rejection naming the valid range. -/
def selectRangeMsg (n : Nat) : String :=
  "Invalid selection. Enter 1-" ++ toString n ++ "."

/-- Modelled from the spec: whole-input multiselect rejection naming the
valid range. -/
def multiselectRangeMsg (n : Nat) : String :=
  "Invalid selection. Enter numbers 1-" ++ toString n ++ " separated by commas."

/-- Modelled from the spec: date rejection with a format example. -/
def dateFormatMsg : String :=
  "Invalid date. Use format YYYY-MM-DD (e.g. 2024-01-15)."

/-- Modelled from the spec: datetime rejection with a format example. -/
def datetimeFormatMsg : String :=
  "Invalid date/time. Use format YYYY-MM-DD HH:MM (e.g. 2024-01-15 14:30)."

/-- Modelled from the spec: number rejection. -/
def numberFormatMsg : String :=
  "Invalid number. Enter a numeric value."

/-- Modelled from the spec: prompt shown after selecting the synthetic
"Other" choice. -/
def customValuePromptMsg : String :=
  italic "Type your custom value:"

/-- Modelled from the spec: the per-field input processing of section 4.3 for
the current field, in precedence order (custom-value override, `skip`,
attachment, select, multiselect, date, datetime, number, free text). -/
def handleFieldCore (text : String) (state : ConvState) (fc : FieldCollection)
    (field : Field) (conversationId : String) (store : Store) : FlowResult :=
  if fc.awaitingCustomValue then
    if field.required ∧ jsTrim text = "" then
      { store := store, messages := [emptyRequiredMsg] }
    else
      let fc2 := { storeValue fc field (.vstr text) (some (.text text)) with
        awaitingCustomValue := false }
      advanceAfterStore state fc2 conversationId store
  else if jsTrim (jsToLower text) = "skip" then
    if field.required then
      { store := store, messages := [requiredSkipMsg] }
    else
      advanceAfterStore state (storeValue fc field .vnull none) conversationId store
  else if field.ftype = "attachment" then
    advanceAfterStore state (storeValue fc field .vnull none) conversationId store
  else if field.ftype = "select" ∧ 0 < field.validValues.length then
    match strToNat? (jsTrim text) with
    | some i =>
      match field.validValues.get? (i - 1) with
      | some choice =>
        if 1 ≤ i then
          if choice.id = "__other__" then
            let fc2 := { fc with awaitingCustomValue := true }
            let st2 := { state with fieldCollection := some fc2 }
            { store := setState store conversationId st2,
              messages := [customValuePromptMsg] }
          else
            advanceAfterStore state
              (storeValue fc field (.vid choice.id) (some (.choices [choice.id])))
              conversationId store
        else { store := store, messages := [selectRangeMsg field.validValues.length] }
      | none => { store := store, messages := [selectRangeMsg field.validValues.length] }
    | none => { store := store, messages := [selectRangeMsg field.validValues.length] }
  else if field.ftype = "multiselect" ∧ 0 < field.validValues.length then
    match parseSelections ((strSplitOn text ',').map jsTrim)
        field.validValues.length with
    | some idxs =>
      let ids := idxs.filterMap (fun i => (field.validValues.get? (i - 1)).map (fun c => c.id))
      advanceAfterStore state
        (storeValue fc field (.vids ids) (some (.choices ids))) conversationId store
    | none =>
      { store := store, messages := [multiselectRangeMsg field.validValues.length] }
  else if field.ftype = "date" then
    if isYMD text then
      advanceAfterStore state
        (storeValue fc field (.vstr text) (some (.text text))) conversationId store
    else { store := store, messages := [dateFormatMsg] }
  else if field.ftype = "datetime" then
    if isYMDHM text then
      advanceAfterStore state
        (storeValue fc field (.vstr text) (some (.text text))) conversationId store
    else { store := store, messages := [datetimeFormatMsg] }
  else if field.ftype = "number" then
    if isFiniteNumber text then
      advanceAfterStore state
        (storeValue fc field (.vstr (jsTrim text)) (some (.text (jsTrim text)))) conversationId store
    else { store := store, messages := [numberFormatMsg] }
  else
    if field.required ∧ jsTrim text = "" then
      { store := store, messages := [emptyRequiredMsg] }
    else
      advanceAfterStore state
        (storeValue fc field (.vstr (jsTrim text)) (some (.text (jsTrim text))))
        conversationId store

/-- Modelled from the spec: `handleField` — process the input against the
field under the cursor; without a field collection or with the cursor out of
range nothing happens. -/
def handleField (text : String) (state : ConvState) (conversationId : String)
    (store : Store) : FlowResult :=
  match state.fieldCollection with
  | none => { store := store, messages := [] }
  | some fc =>
    match fc.fields.get? fc.currentFieldIndex with
    | none => { store := store, messages := [] }
    | some field => handleFieldCore text state fc field conversationId store

/-! ## Top-level dispatch (src/components/itsm/index.mjs `handleRequestFlow`) -/

/-- `handleRequestFlow(bot, context, text, state, conversationId)`: the
lowercased, trimmed command is checked for `cancel` and `back` before
dispatching on `state.step`; `back` while `awaitingCustomValue` merely
clears the flag and re-shows the current field. -/
def handleRequestFlow (env : ITSMEnv) (text : String) (state : ConvState)
    (conversationId : String) (store : Store) : FlowResult :=
  let cmd := jsTrim (jsToLower text)
  if cmd = "cancel" then
    { store := deleteState store conversationId,
      messages := ["Request cancelled."] }
  else if cmd = "back" then
    match state.fieldCollection with
    | some fc =>
      if fc.awaitingCustomValue then
        let fc2 := { fc with awaitingCustomValue := false }
        let st2 := { state with fieldCollection := some fc2 }
        { store := setState store conversationId st2,
          messages := [showFieldMsg st2] }
      else goBack state conversationId store
    | none => goBack state conversationId store
  else
    match state.step with
    | some .select_service_desk => handleServiceDesk env text state conversationId store
    | some .select_portal_group => handlePortalGroup text state conversationId store
    | some .select_request_type => handleRequestType env text state conversationId store
    | some .collect_field => handleField text state conversationId store
    | some .confirm => handleConfirm env text state conversationId store
    | none => { store := store, messages := [] }

/-! ## Concrete fixtures used by the witness theorems -/

def deskA : ServiceDesk :=
  { id := "1", projectKey := "IT", projectName := "IT Support" }

def groupA : PortalGroup := { id := "10", name := "Hardware" }

def rtA : RequestType :=
  { id := "25", name := "Fix my printer", groupIds := some [.str "10"] }

def rtB : RequestType :=
  { id := "26", name := "New laptop", groupIds := some [.num 7] }

def env0 : ITSMEnv :=
  { getPortalGroups := fun _ => .ok [groupA],
    getRequestTypes := fun _ => .ok [rtA, rtB],
    getPortalFields := fun _ _ => .ok [],
    getRequestTypeForm := fun _ _ => none,
    createRequest := fun _ => .ok { issueId := "10001", issueKey := "IT-1" },
    getPortalUrl := fun k => "https://example.atlassian.net/browse/" ++ k,
    attachFormToIssue := fun _ _ => .ok { id := some "f1" },
    setFormExternal := fun _ _ => .ok (),
    saveFormAnswers := fun _ _ _ => .ok (),
    elapsed := "1.2s" }

/-- An environment whose create-request endpoint always rejects. -/
def envFail : ITSMEnv :=
  { env0 with createRequest := fun _ => .error "Upstream 502" }

def fieldSummary : Field :=
  { source := .portal, fieldId := "summary", name := "Summary",
    required := true, ftype := "text" }

def fieldSeverity : Field :=
  { source := .portal, fieldId := "severity", name := "Severity",
    required := false, ftype := "multiselect",
    validValues := [{ id := "s1", name := "Low" }, { id := "s2", name := "Medium" },
                    { id := "s3", name := "High" }] }

def fieldDue : Field :=
  { source := .portal, fieldId := "duedate", name := "Due date",
    required := false, ftype := "date" }

/-- A mid-collection state: cursor on the multiselect field. -/
def stateCollect : ConvState :=
  { awaitingITSMDetails := true,
    step := some .collect_field,
    selectedServiceDesk := some deskA,
    selectedPortalGroup := some groupA,
    selectedRequestType := some rtA,
    fieldCollection := some
      { currentFieldIndex := 1,
        fields := [fieldSummary, fieldSeverity, fieldDue],
        collectedValues := [("summary", .vstr "Printer broken")],
        formAnswers := [] } }

/-- The same flow with the cursor on the date field. -/
def stateCollectDate : ConvState :=
  { stateCollect with
    fieldCollection := some
      { currentFieldIndex := 2,
        fields := [fieldSummary, fieldSeverity, fieldDue],
        collectedValues := [("summary", .vstr "Printer broken"),
                            ("severity", .vids ["s1"])],
        formAnswers := [] } }

/-- A confirm-step state whose required summary was never collected. -/
def stateConfirmMissing : ConvState :=
  { awaitingITSMDetails := true,
    step := some .confirm,
    selectedServiceDesk := some deskA,
    selectedPortalGroup := some groupA,
    selectedRequestType := some rtA,
    fieldCollection := some
      { currentFieldIndex := 3,
        fields := [fieldSummary, fieldSeverity, fieldDue],
        collectedValues := [("severity", .vids ["s1"])],
        formAnswers := [] } }

/-- A confirm-step state with all required fields collected. -/
def stateConfirmReady : ConvState :=
  { stateConfirmMissing with
    fieldCollection := some
      { currentFieldIndex := 3,
        fields := [fieldSummary, fieldSeverity, fieldDue],
        collectedValues := [("summary", .vstr "Printer broken"),
                            ("severity", .vids ["s1"])],
        formAnswers := [] } }

/-- A portal-group-step state whose request types include a match for
`groupA` and a non-match. -/
def stateGroups : ConvState :=
  { awaitingITSMDetails := true,
    step := some .select_portal_group,
    selectedServiceDesk := some deskA,
    portalGroups := some [groupA],
    requestTypes := some [rtA, rtB] }

/-- A portal-group-step state none of whose request types match `groupA`. -/
def stateGroupsNoMatch : ConvState :=
  { stateGroups with requestTypes := some [rtB] }

/-- A request-type-step state ready to select `rtA` (no caches, so the field
and form data come from the environment). -/
def stateTypes : ConvState :=
  { awaitingITSMDetails := true,
    step := some .select_request_type,
    selectedServiceDesk := some deskA,
    selectedPortalGroup := some groupA,
    requestTypes := some [rtA, rtB],
    filteredRequestTypes := some [rtA] }

def store0 : Store := [("conv1", stateCollect)]

/-- A portal field used (twice) in the reconciliation counterexample. -/
def pfDup : PortalField :=
  { fieldId := "summary", name := "Summary", required := true }

def qEmail1 : FormQuestion := { id := "q1", label := "Email" }

def qEmail2 : FormQuestion := { id := "q2", label := "email " }

def qSummary : FormQuestion := { id := "q3", label := "Summary" }

/-! ## Store and association-list lemmas -/

theorem lookupKey_cons {α : Type} (kv : String × α) (rest : List (String × α))
    (k : String) :
    lookupKey (kv :: rest) k
      = if kv.1 = k then some kv.2 else lookupKey rest k := by
  by_cases h : kv.1 = k
  · rw [if_pos h]
    unfold lookupKey
    rw [List.find?_cons_of_pos _ (by simp [h])]
    rfl
  · rw [if_neg h]
    unfold lookupKey
    rw [List.find?_cons_of_neg _ (by simp [h])]

theorem eraseKey_cons {α : Type} (kv : String × α) (rest : List (String × α))
    (k : String) :
    eraseKey (kv :: rest) k
      = if kv.1 = k then eraseKey rest k else kv :: eraseKey rest k := by
  by_cases h : kv.1 = k <;> simp [eraseKey, List.filter_cons, h]

theorem lookupKey_eraseKey_self {α : Type} (l : List (String × α)) (k : String) :
    lookupKey (eraseKey l k) k = none := by
  induction l with
  | nil => rfl
  | cons kv rest ih =>
    rw [eraseKey_cons]
    by_cases h : kv.1 = k
    · rw [if_pos h]; exact ih
    · rw [if_neg h, lookupKey_cons, if_neg h]; exact ih

theorem lookupKey_eraseKey_ne {α : Type} (l : List (String × α)) {k k' : String}
    (h : k' ≠ k) : lookupKey (eraseKey l k) k' = lookupKey l k' := by
  induction l with
  | nil => rfl
  | cons kv rest ih =>
    rw [eraseKey_cons, lookupKey_cons]
    by_cases hk : kv.1 = k
    · have hk2 : ¬ kv.1 = k' := by rw [hk]; exact fun he => h he.symm
      rw [if_pos hk, if_neg hk2]; exact ih
    · rw [if_neg hk, lookupKey_cons]
      by_cases hk2 : kv.1 = k'
      · rw [if_pos hk2, if_pos hk2]
      · rw [if_neg hk2, if_neg hk2]; exact ih

theorem lookupKey_append_absent {α : Type} (l : List (String × α)) (k : String)
    (v : α) (habs : lookupKey l k = none) :
    lookupKey (l ++ [(k, v)]) k = some v := by
  induction l with
  | nil => rw [List.nil_append, lookupKey_cons, if_pos rfl]
  | cons kv rest ih =>
    rw [lookupKey_cons] at habs
    by_cases h : kv.1 = k
    · rw [if_pos h] at habs; cases habs
    · rw [if_neg h] at habs
      rw [List.cons_append, lookupKey_cons, if_neg h]
      exact ih habs

theorem lookupKey_mapOverwrite {α : Type} (l : List (String × α)) (k : String)
    (v : α) (hmem : (lookupKey l k).isSome) :
    lookupKey (l.map (fun kv => if kv.1 = k then (k, v) else kv)) k = some v := by
  induction l with
  | nil => cases hmem
  | cons kv rest ih =>
    rw [lookupKey_cons] at hmem
    rw [List.map_cons]
    by_cases h : kv.1 = k
    · rw [if_pos h, lookupKey_cons, if_pos rfl]
    · rw [if_neg h] at hmem ⊢
      rw [lookupKey_cons, if_neg h]
      exact ih hmem

theorem lookupKey_mapOverwrite_ne {α : Type} (l : List (String × α))
    {k k' : String} (v : α) (h : k' ≠ k) :
    lookupKey (l.map (fun kv => if kv.1 = k then (k, v) else kv)) k'
      = lookupKey l k' := by
  induction l with
  | nil => rfl
  | cons kv rest ih =>
    rw [List.map_cons, lookupKey_cons]
    by_cases hk : kv.1 = k
    · have hne : ¬ ((k, v).1 = k') := fun he => h he.symm
      rw [if_pos hk, if_neg hne, lookupKey_cons]
      have hk2 : ¬ kv.1 = k' := by rw [hk]; exact fun he => h he.symm
      rw [if_neg hk2]
      exact ih
    · rw [if_neg hk, lookupKey_cons]
      by_cases hk2 : kv.1 = k'
      · rw [if_pos hk2, if_pos hk2]
      · rw [if_neg hk2, if_neg hk2]; exact ih

theorem lookupKey_append_right_ne {α : Type} (l : List (String × α))
    {k k' : String} (v : α) (h : k' ≠ k) :
    lookupKey (l ++ [(k, v)]) k' = lookupKey l k' := by
  induction l with
  | nil =>
    rw [List.nil_append, lookupKey_cons, if_neg (fun he => h he.symm)]
  | cons kv rest ih =>
    rw [List.cons_append, lookupKey_cons, lookupKey_cons]
    by_cases hk2 : kv.1 = k'
    · rw [if_pos hk2, if_pos hk2]
    · rw [if_neg hk2, if_neg hk2]; exact ih

theorem findKey_eq_lookupKey {α : Type} (l : List (String × α)) (k : String) :
    (l.find? (fun kv => kv.1 = k)).isSome = (lookupKey l k).isSome := by
  unfold lookupKey
  cases l.find? (fun kv => kv.1 = k) <;> rfl

theorem lookupKey_insertKey_self {α : Type} (l : List (String × α)) (k : String)
    (v : α) : lookupKey (insertKey l k v) k = some v := by
  unfold insertKey
  by_cases hmem : (l.find? (fun kv => kv.1 = k)).isSome
  · rw [if_pos hmem]
    exact lookupKey_mapOverwrite l k v ((findKey_eq_lookupKey l k) ▸ hmem)
  · rw [if_neg hmem]
    have habs : lookupKey l k = none := by
      rw [findKey_eq_lookupKey] at hmem
      cases hlk : lookupKey l k with
      | none => rfl
      | some _ => rw [hlk] at hmem; cases hmem rfl
    exact lookupKey_append_absent l k v habs

theorem lookupKey_insertKey_ne {α : Type} (l : List (String × α)) {k k' : String}
    (v : α) (h : k' ≠ k) : lookupKey (insertKey l k v) k' = lookupKey l k' := by
  unfold insertKey
  by_cases hmem : (l.find? (fun kv => kv.1 = k)).isSome
  · rw [if_pos hmem]
    exact lookupKey_mapOverwrite_ne l v h
  · rw [if_neg hmem]
    exact lookupKey_append_right_ne l v h

theorem getStateOpt_deleteState_self (store : Store) (conversationId : String) :
    getStateOpt (deleteState store conversationId) conversationId = none := by
  have h : getStateOpt = fun (st : Store) (id : String) => lookupKey st id := by
    funext st id
    unfold getStateOpt lookupKey
    rfl
  have h2 : deleteState = fun (st : Store) (id : String) => eraseKey st id := by
    funext st id
    unfold deleteState eraseKey
    rfl
  rw [h, h2]
  exact lookupKey_eraseKey_self store conversationId

theorem getState_deleteState_self (store : Store) (conversationId : String) :
    getState (deleteState store conversationId) conversationId = ({} : ConvState) := by
  unfold getState
  rw [getStateOpt_deleteState_self]
  rfl

theorem getState_setState_self (store : Store) (conversationId : String)
    (s : ConvState) :
    getState (setState store conversationId s) conversationId = s := by
  unfold getState getStateOpt setState
  rw [List.find?_cons_of_pos _ (by simp)]
  rfl

/-! ## String containment lemmas -/

theorem strContains_self (s : String) : strContains s s :=
  ⟨"", "", by rw [String.empty_append, String.append_empty]⟩

theorem strContains_append_left (x : String) {h n : String}
    (hc : strContains h n) : strContains (x ++ h) n := by
  obtain ⟨a, b, hab⟩ := hc
  exact ⟨x ++ a, b, by simp [hab, String.append_assoc]⟩

theorem strContains_append_right (x : String) {h n : String}
    (hc : strContains h n) : strContains (h ++ x) n := by
  obtain ⟨a, b, hab⟩ := hc
  exact ⟨a, b ++ x, by simp [hab, String.append_assoc]⟩

/-! ## C1 — cancel deletes the conversation state -/

/-- C1: in every conversation state and at every step, an input whose
lowercased trimmed form is `cancel` deletes the conversation's entry from the
store and sends "Request cancelled."; a subsequent `getState` of the same
conversation id yields the fresh empty record, with no step and no field
collection left over from the aborted flow. -/
theorem cancel_deletes_state (env : ITSMEnv) (text : String) (state : ConvState)
    (conversationId : String) (store : Store)
    (hcmd : jsTrim (jsToLower text) = "cancel") :
    (handleRequestFlow env text state conversationId store).store
        = deleteState store conversationId ∧
    (handleRequestFlow env text state conversationId store).messages
        = ["Request cancelled."] ∧
    getState (handleRequestFlow env text state conversationId store).store
        conversationId = ({} : ConvState) ∧
    (getState (handleRequestFlow env text state conversationId store).store
        conversationId).step = none ∧
    (getState (handleRequestFlow env text state conversationId store).store
        conversationId).fieldCollection = none := by
  have h1 : handleRequestFlow env text state conversationId store
      = { store := deleteState store conversationId,
          messages := ["Request cancelled."] } := by
    unfold handleRequestFlow
    simp [hcmd]
  rw [h1]
  refine ⟨rfl, rfl, ?_, ?_, ?_⟩ <;> simp [getState_deleteState_self]

/-- Witness for C1: the input " CANCEL " at the collect-field fixture. -/
theorem cancel_deletes_state_witness :
    (handleRequestFlow env0 " CANCEL " stateCollect "conv1" store0).store
        = deleteState store0 "conv1" ∧
    (handleRequestFlow env0 " CANCEL " stateCollect "conv1" store0).messages
        = ["Request cancelled."] ∧
    getState (handleRequestFlow env0 " CANCEL " stateCollect "conv1" store0).store
        "conv1" = ({} : ConvState) ∧
    (getState (handleRequestFlow env0 " CANCEL " stateCollect "conv1" store0).store
        "conv1").step = none ∧
    (getState (handleRequestFlow env0 " CANCEL " stateCollect "conv1" store0).store
        "conv1").fieldCollection = none :=
  cancel_deletes_state env0 " CANCEL " stateCollect "conv1" store0 (by decide)

/-! ## C6 — back navigation within field collection -/

theorem handleRequestFlow_back (env : ITSMEnv) (text : String) (state : ConvState)
    (conversationId : String) (store : Store)
    (hcmd : jsTrim (jsToLower text) = "back")
    (hawait : ∀ fc, state.fieldCollection = some fc → fc.awaitingCustomValue = false) :
    handleRequestFlow env text state conversationId store
      = goBack state conversationId store := by
  unfold handleRequestFlow
  rw [hcmd]
  rw [if_neg (by decide), if_pos rfl]
  cases hfc : state.fieldCollection with
  | none => rfl
  | some fc => simp [hawait fc hfc]

/-- C6: on a `back` input (with no pending custom-value override), at
`collect_field` with a positive cursor the cursor moves to the previous field
and exactly that field's stored value is cleared; at `confirm` with a
non-empty field list the step returns to `collect_field` at the last field,
clearing exactly that field's value; at `collect_field` with cursor 0 the
flow returns to `select_request_type` (not `select_portal_group`), dropping
the selected request type and the field collection. -/
theorem back_navigation (env : ITSMEnv) (text : String) (state : ConvState)
    (conversationId : String) (store : Store) (fc : FieldCollection)
    (hcmd : jsTrim (jsToLower text) = "back")
    (hfc : state.fieldCollection = some fc)
    (hawait : fc.awaitingCustomValue = false) :
    (state.step = some .collect_field → 0 < fc.currentFieldIndex →
      ∀ f : Field, fc.fields.get? (fc.currentFieldIndex - 1) = some f →
      getState (handleRequestFlow env text state conversationId store).store
          conversationId
        = { state with fieldCollection := some { fc with
              currentFieldIndex := fc.currentFieldIndex - 1,
              collectedValues := eraseKey fc.collectedValues f.fieldId } } ∧
      lookupKey (eraseKey fc.collectedValues f.fieldId) f.fieldId = none ∧
      (∀ k, k ≠ f.fieldId →
        lookupKey (eraseKey fc.collectedValues f.fieldId) k
          = lookupKey fc.collectedValues k)) ∧
    (state.step = some .confirm → 0 < fc.fields.length →
      ∀ f : Field, fc.fields.get? (fc.fields.length - 1) = some f →
      getState (handleRequestFlow env text state conversationId store).store
          conversationId
        = { state with
              step := some .collect_field,
              fieldCollection := some { fc with
                currentFieldIndex := fc.fields.length - 1,
                collectedValues := eraseKey fc.collectedValues f.fieldId } } ∧
      lookupKey (eraseKey fc.collectedValues f.fieldId) f.fieldId = none ∧
      (∀ k, k ≠ f.fieldId →
        lookupKey (eraseKey fc.collectedValues f.fieldId) k
          = lookupKey fc.collectedValues k)) ∧
    (state.step = some .collect_field → fc.currentFieldIndex = 0 →
      getState (handleRequestFlow env text state conversationId store).store
          conversationId
        = { state with
              step := some .select_request_type,
              selectedRequestType := none,
              fieldCollection := none }) := by
  rw [handleRequestFlow_back env text state conversationId store hcmd
    (fun fc' hfc' => by rw [hfc] at hfc'; cases hfc'; exact hawait)]
  refine ⟨?_, ?_, ?_⟩
  · intro hstep hidx f hf
    unfold goBack
    rw [hstep, hfc]
    simp only [if_pos hidx, hf]
    exact ⟨getState_setState_self _ _ _, lookupKey_eraseKey_self _ _,
      fun k hk => lookupKey_eraseKey_ne _ hk⟩
  · intro hstep hlen f hf
    unfold goBack
    rw [hstep, hfc]
    simp only [if_pos hlen, hf]
    exact ⟨getState_setState_self _ _ _, lookupKey_eraseKey_self _ _,
      fun k hk => lookupKey_eraseKey_ne _ hk⟩
  · intro hstep hidx
    unfold goBack
    rw [hstep, hfc]
    simp only [hidx, lt_irrefl, if_neg]
    exact getState_setState_self _ _ _

/-- Witness for C6: `back` on the collect-field fixture (cursor 1) moves to
the summary field and clears it. -/
theorem back_navigation_witness :
    getState (handleRequestFlow env0 "Back " stateCollect "conv1" store0).store
        "conv1"
      = { stateCollect with fieldCollection := some {
            currentFieldIndex := 0,
            fields := [fieldSummary, fieldSeverity, fieldDue],
            collectedValues := [],
            formAnswers := [] } } ∧
    lookupKey
      (eraseKey [(("summary" : String), Value.vstr "Printer broken")] "summary")
      "summary" = none :=
  have h := back_navigation env0 "Back " stateCollect "conv1" store0
    { currentFieldIndex := 1,
      fields := [fieldSummary, fieldSeverity, fieldDue],
      collectedValues := [("summary", .vstr "Printer broken")],
      formAnswers := [] }
    (by decide) rfl rfl
  have h1 := h.1 rfl (by decide) fieldSummary rfl
  ⟨h1.1, h1.2.1⟩

/-! ## Dispatch lemmas for ordinary (non-cancel, non-back) inputs -/

theorem handleRequestFlow_at_portal_group (env : ITSMEnv) (text : String)
    (state : ConvState) (conversationId : String) (store : Store)
    (hcmd1 : jsTrim (jsToLower text) ≠ "cancel")
    (hcmd2 : jsTrim (jsToLower text) ≠ "back")
    (hstep : state.step = some .select_portal_group) :
    handleRequestFlow env text state conversationId store
      = handlePortalGroup text state conversationId store := by
  unfold handleRequestFlow
  rw [if_neg hcmd1, if_neg hcmd2, hstep]

theorem handleRequestFlow_at_request_type (env : ITSMEnv) (text : String)
    (state : ConvState) (conversationId : String) (store : Store)
    (hcmd1 : jsTrim (jsToLower text) ≠ "cancel")
    (hcmd2 : jsTrim (jsToLower text) ≠ "back")
    (hstep : state.step = some .select_request_type) :
    handleRequestFlow env text state conversationId store
      = handleRequestType env text state conversationId store := by
  unfold handleRequestFlow
  rw [if_neg hcmd1, if_neg hcmd2, hstep]

theorem handleRequestFlow_at_collect (env : ITSMEnv) (text : String)
    (state : ConvState) (conversationId : String) (store : Store)
    (hcmd1 : jsTrim (jsToLower text) ≠ "cancel")
    (hcmd2 : jsTrim (jsToLower text) ≠ "back")
    (hstep : state.step = some .collect_field) :
    handleRequestFlow env text state conversationId store
      = handleField text state conversationId store := by
  unfold handleRequestFlow
  rw [if_neg hcmd1, if_neg hcmd2, hstep]

theorem handleRequestFlow_at_confirm (env : ITSMEnv) (text : String)
    (state : ConvState) (conversationId : String) (store : Store)
    (hcmd1 : jsTrim (jsToLower text) ≠ "cancel")
    (hcmd2 : jsTrim (jsToLower text) ≠ "back")
    (hstep : state.step = some .confirm) :
    handleRequestFlow env text state conversationId store
      = handleConfirm env text state conversationId store := by
  unfold handleRequestFlow
  rw [if_neg hcmd1, if_neg hcmd2, hstep]

theorem handleRequestType_no_selection (env : ITSMEnv) (text : String)
    (state : ConvState) (conversationId : String) (store : Store)
    (hsel : selectFromList text (state.filteredRequestTypes.getD [])
      (none : Option (RequestType → String)) = none) :
    handleRequestType env text state conversationId store
      = { store := store,
          messages := ["Invalid selection. Enter 1-" ++
            toString (state.filteredRequestTypes.getD []).length ++ "."] } := by
  simp only [handleRequestType, hsel]

/-! ## C9 — portal-group filtering checks both id representations -/

theorem groupIdMatches_iff (gids : List GroupIdVal) (gid : String) :
    groupIdMatches gids gid = true ↔
      (GroupIdVal.str gid ∈ gids ∨
        ∃ n, jsParseInt gid = some n ∧ GroupIdVal.num n ∈ gids) := by
  unfold groupIdMatches
  cases hp : jsParseInt gid with
  | none =>
    simp only [Bool.or_eq_true, List.elem_iff]
    constructor
    · rintro (h | h)
      · exact Or.inl h
      · cases h
    · rintro (h | ⟨n, hn, _⟩)
      · exact Or.inl h
      · cases hn
  | some n =>
    simp only [Bool.or_eq_true, List.elem_iff]
    constructor
    · rintro (h | h)
      · exact Or.inl h
      · exact Or.inr ⟨n, rfl, h⟩
    · rintro (h | ⟨m, hm, hmem⟩)
      · exact Or.inl h
      · cases hm; exact Or.inr hmem

theorem mem_filterRequestTypes (rts : List RequestType) (gid : String)
    (rt : RequestType) :
    rt ∈ filterRequestTypes rts gid ↔
      (rt ∈ rts ∧ ∃ gids, rt.groupIds = some gids ∧
        (GroupIdVal.str gid ∈ gids ∨
          ∃ n, jsParseInt gid = some n ∧ GroupIdVal.num n ∈ gids)) := by
  unfold filterRequestTypes
  rw [List.mem_filter]
  constructor
  · rintro ⟨hmem, hpred⟩
    refine ⟨hmem, ?_⟩
    cases hg : rt.groupIds with
    | none => rw [hg] at hpred; cases hpred
    | some gids =>
      rw [hg] at hpred
      exact ⟨gids, rfl, (groupIdMatches_iff gids gid).1 hpred⟩
  · rintro ⟨hmem, gids, hg, hmatch⟩
    refine ⟨hmem, ?_⟩
    rw [hg]
    exact (groupIdMatches_iff gids gid).2 hmatch

/-- C9: a valid portal-group selection stores exactly the request types whose
`groupIds` list contains the group's id either in its string form or in its
integer-parsed form; both representations are checked. -/
theorem portal_group_filtering (env : ITSMEnv) (text : String) (state : ConvState)
    (conversationId : String) (store : Store) (groups : List PortalGroup)
    (rts : List RequestType) (g : PortalGroup)
    (hstep : state.step = some .select_portal_group)
    (hgroups : state.portalGroups = some groups)
    (hrts : state.requestTypes = some rts)
    (hsel : selectFromList text groups (none : Option (PortalGroup → String)) = some g)
    (hcmd1 : jsTrim (jsToLower text) ≠ "cancel")
    (hcmd2 : jsTrim (jsToLower text) ≠ "back") :
    (getState (handleRequestFlow env text state conversationId store).store
        conversationId).filteredRequestTypes = some (filterRequestTypes rts g.id) ∧
    (getState (handleRequestFlow env text state conversationId store).store
        conversationId).step = some .select_request_type ∧
    (getState (handleRequestFlow env text state conversationId store).store
        conversationId).selectedPortalGroup = some g ∧
    (∀ rt, rt ∈ filterRequestTypes rts g.id ↔
      (rt ∈ rts ∧ ∃ gids, rt.groupIds = some gids ∧
        (GroupIdVal.str g.id ∈ gids ∨
          ∃ n, jsParseInt g.id = some n ∧ GroupIdVal.num n ∈ gids))) := by
  rw [handleRequestFlow_at_portal_group env text state conversationId store
    hcmd1 hcmd2 hstep]
  unfold handlePortalGroup
  rw [hgroups, hrts]
  simp only [Option.getD_some, hsel]
  rw [getState_setState_self]
  exact ⟨rfl, rfl, rfl, fun rt => mem_filterRequestTypes rts g.id rt⟩

/-- Witness for C9: choosing group 1 against a matching and a non-matching
request type keeps exactly the matching one. -/
theorem portal_group_filtering_witness :
    (getState (handleRequestFlow env0 "1" stateGroups "conv1"
        [("conv1", stateGroups)]).store "conv1").filteredRequestTypes
      = some (filterRequestTypes [rtA, rtB] groupA.id) ∧
    (getState (handleRequestFlow env0 "1" stateGroups "conv1"
        [("conv1", stateGroups)]).store "conv1").step
      = some .select_request_type ∧
    (getState (handleRequestFlow env0 "1" stateGroups "conv1"
        [("conv1", stateGroups)]).store "conv1").selectedPortalGroup
      = some groupA ∧
    (∀ rt, rt ∈ filterRequestTypes [rtA, rtB] groupA.id ↔
      (rt ∈ [rtA, rtB] ∧ ∃ gids, rt.groupIds = some gids ∧
        (GroupIdVal.str groupA.id ∈ gids ∨
          ∃ n, jsParseInt groupA.id = some n ∧ GroupIdVal.num n ∈ gids))) :=
  portal_group_filtering env0 "1" stateGroups "conv1" [("conv1", stateGroups)]
    [groupA] [rtA, rtB] groupA rfl rfl rfl (by decide) (by decide) (by decide)

/-! ## C10 — a group with zero matching request types still advances -/

theorem request_type_rejects_all (env : ITSMEnv) (text2 : String)
    (state : ConvState) (conversationId : String) (store : Store)
    (hstep : state.step = some .select_request_type)
    (hfilteredRT : state.filteredRequestTypes = some [])
    (hc1 : jsTrim (jsToLower text2) ≠ "cancel")
    (hc2 : jsTrim (jsToLower text2) ≠ "back") :
    (handleRequestFlow env text2 state conversationId store).store = store ∧
    (handleRequestFlow env text2 state conversationId store).messages
      = ["Invalid selection. Enter 1-0."] := by
  rw [handleRequestFlow_at_request_type env text2 state conversationId store
    hc1 hc2 hstep]
  have hsel : selectFromList text2 (state.filteredRequestTypes.getD [])
      (none : Option (RequestType → String)) = none := by
    rw [hfilteredRT]
    rfl
  rw [handleRequestType_no_selection env text2 state conversationId store hsel]
  rw [hfilteredRT]
  exact ⟨rfl, rfl⟩

/-- C10: a valid portal-group selection always moves to
`select_request_type`, even when no request type matches the group: the
stored `filteredRequestTypes` is then the empty list, every subsequent
non-`back`/non-`cancel` input there is rejected with "Invalid selection.
Enter 1-0." leaving the store unchanged, `back` returns to
`select_portal_group`, and `cancel` deletes the state. -/
theorem empty_group_still_advances (env : ITSMEnv) (text : String)
    (state : ConvState) (conversationId : String) (store : Store)
    (groups : List PortalGroup) (g : PortalGroup)
    (hstep : state.step = some .select_portal_group)
    (hgroups : state.portalGroups = some groups)
    (hsel : selectFromList text groups (none : Option (PortalGroup → String)) = some g)
    (hcmd1 : jsTrim (jsToLower text) ≠ "cancel")
    (hcmd2 : jsTrim (jsToLower text) ≠ "back")
    (hawait : ∀ fc, state.fieldCollection = some fc → fc.awaitingCustomValue = false)
    (hfilter : filterRequestTypes (state.requestTypes.getD []) g.id = []) :
    (getState (handleRequestFlow env text state conversationId store).store
        conversationId).step = some .select_request_type ∧
    (getState (handleRequestFlow env text state conversationId store).store
        conversationId).filteredRequestTypes = some [] ∧
    (∀ text2, jsTrim (jsToLower text2) ≠ "cancel" →
      jsTrim (jsToLower text2) ≠ "back" →
      (handleRequestFlow env text2
          (getState (handleRequestFlow env text state conversationId store).store
            conversationId)
          conversationId
          (handleRequestFlow env text state conversationId store).store).store
        = (handleRequestFlow env text state conversationId store).store ∧
      (handleRequestFlow env text2
          (getState (handleRequestFlow env text state conversationId store).store
            conversationId)
          conversationId
          (handleRequestFlow env text state conversationId store).store).messages
        = ["Invalid selection. Enter 1-0."]) ∧
    (∀ text2, jsTrim (jsToLower text2) = "back" →
      (getState (handleRequestFlow env text2
          (getState (handleRequestFlow env text state conversationId store).store
            conversationId)
          conversationId
          (handleRequestFlow env text state conversationId store).store).store
        conversationId).step = some .select_portal_group) ∧
    (∀ text2, jsTrim (jsToLower text2) = "cancel" →
      (handleRequestFlow env text2
          (getState (handleRequestFlow env text state conversationId store).store
            conversationId)
          conversationId
          (handleRequestFlow env text state conversationId store).store).store
        = deleteState (handleRequestFlow env text state conversationId store).store
            conversationId) := by
  have h1 : handleRequestFlow env text state conversationId store
      = { store := setState store conversationId
            { state with
              selectedPortalGroup := some g,
              filteredRequestTypes := some [],
              step := some .select_request_type },
          messages := [showRequestTypesMsg
            { state with
              selectedPortalGroup := some g,
              filteredRequestTypes := some [],
              step := some .select_request_type }] } := by
    rw [handleRequestFlow_at_portal_group env text state conversationId store
      hcmd1 hcmd2 hstep]
    unfold handlePortalGroup
    rw [hgroups]
    simp only [Option.getD_some, hsel, hfilter]
  rw [h1]
  rw [getState_setState_self]
  refine ⟨rfl, rfl, ?_, ?_, ?_⟩
  · intro text2 hc1 hc2
    exact request_type_rejects_all env text2 _ conversationId _ rfl rfl hc1 hc2
  · intro text2 hc
    rw [handleRequestFlow_back env text2
      { state with
        selectedPortalGroup := some g,
        filteredRequestTypes := some [],
        step := some .select_request_type }
      conversationId _ hc (fun fc hfc => hawait fc hfc)]
    unfold goBack
    rw [getState_setState_self]
  · intro text2 hc
    unfold handleRequestFlow
    rw [hc, if_pos rfl]

/-- Witness for C10: group 1 against a request-type list with no member of
that group. -/
theorem empty_group_still_advances_witness :
    (getState (handleRequestFlow env0 "1" stateGroupsNoMatch "conv1"
        [("conv1", stateGroupsNoMatch)]).store "conv1").step
      = some .select_request_type ∧
    (getState (handleRequestFlow env0 "1" stateGroupsNoMatch "conv1"
        [("conv1", stateGroupsNoMatch)]).store "conv1").filteredRequestTypes
      = some [] ∧
    (∀ text2, jsTrim (jsToLower text2) ≠ "cancel" →
      jsTrim (jsToLower text2) ≠ "back" →
      (handleRequestFlow env0 text2
          (getState (handleRequestFlow env0 "1" stateGroupsNoMatch "conv1"
            [("conv1", stateGroupsNoMatch)]).store "conv1")
          "conv1"
          (handleRequestFlow env0 "1" stateGroupsNoMatch "conv1"
            [("conv1", stateGroupsNoMatch)]).store).store
        = (handleRequestFlow env0 "1" stateGroupsNoMatch "conv1"
            [("conv1", stateGroupsNoMatch)]).store ∧
      (handleRequestFlow env0 text2
          (getState (handleRequestFlow env0 "1" stateGroupsNoMatch "conv1"
            [("conv1", stateGroupsNoMatch)]).store "conv1")
          "conv1"
          (handleRequestFlow env0 "1" stateGroupsNoMatch "conv1"
            [("conv1", stateGroupsNoMatch)]).store).messages
        = ["Invalid selection. Enter 1-0."]) ∧
    (∀ text2, jsTrim (jsToLower text2) = "back" →
      (getState (handleRequestFlow env0 text2
          (getState (handleRequestFlow env0 "1" stateGroupsNoMatch "conv1"
            [("conv1", stateGroupsNoMatch)]).store "conv1")
          "conv1"
          (handleRequestFlow env0 "1" stateGroupsNoMatch "conv1"
            [("conv1", stateGroupsNoMatch)]).store).store
        "conv1").step = some .select_portal_group) ∧
    (∀ text2, jsTrim (jsToLower text2) = "cancel" →
      (handleRequestFlow env0 text2
          (getState (handleRequestFlow env0 "1" stateGroupsNoMatch "conv1"
            [("conv1", stateGroupsNoMatch)]).store "conv1")
          "conv1"
          (handleRequestFlow env0 "1" stateGroupsNoMatch "conv1"
            [("conv1", stateGroupsNoMatch)]).store).store
        = deleteState (handleRequestFlow env0 "1" stateGroupsNoMatch "conv1"
            [("conv1", stateGroupsNoMatch)]).store "conv1") :=
  empty_group_still_advances env0 "1" stateGroupsNoMatch "conv1"
    [("conv1", stateGroupsNoMatch)] [groupA] groupA rfl rfl (by decide)
    (by decide) (by decide) (fun fc hfc => by cases hfc) (by decide)

/-! ## C5 — empty merged field list goes straight to confirm -/

/-- C5: a valid request-type selection whose resolved portal fields are empty
and whose resolved form template is absent (so the merged field list is
empty) transitions directly from `select_request_type` to `confirm` in this
single step, with a field collection holding an empty field list and cursor
0; the "no form fields" notice and the confirmation screen are sent. -/
theorem empty_fields_direct_confirm (env : ITSMEnv) (text : String)
    (state : ConvState) (conversationId : String) (store : Store)
    (types : List RequestType) (selected : RequestType)
    (hstep : state.step = some .select_request_type)
    (htypes : state.filteredRequestTypes = some types)
    (hsel : selectFromList text types (none : Option (RequestType → String))
      = some selected)
    (hcmd1 : jsTrim (jsToLower text) ≠ "cancel")
    (hcmd2 : jsTrim (jsToLower text) ≠ "back")
    (hfields : resolvePortalFields env state selected = .ok [])
    (hform : resolveFormTemplate env state selected = none) :
    getState (handleRequestFlow env text state conversationId store).store
        conversationId
      = { state with
          selectedRequestType := some selected,
          formTemplate := none,
          fieldCollection := some
            { currentFieldIndex := 0, fields := [],
              collectedValues := [], formAnswers := [] },
          step := some .confirm } ∧
    (getState (handleRequestFlow env text state conversationId store).store
        conversationId).step = some .confirm ∧
    (getState (handleRequestFlow env text state conversationId store).store
        conversationId).fieldCollection
      = some { currentFieldIndex := 0, fields := [],
               collectedValues := [], formAnswers := [] } ∧
    (handleRequestFlow env text state conversationId store).messages
      = [noFieldsMsg, showConfirmationMsg
          { state with
            selectedRequestType := some selected,
            formTemplate := none,
            fieldCollection := some
              { currentFieldIndex := 0, fields := [],
                collectedValues := [], formAnswers := [] },
            step := some .confirm }] := by
  rw [handleRequestFlow_at_request_type env text state conversationId store
    hcmd1 hcmd2 hstep]
  have h1 : handleRequestType env text state conversationId store
      = { store := setState store conversationId
            { state with
              selectedRequestType := some selected,
              formTemplate := none,
              fieldCollection := some
                { currentFieldIndex := 0, fields := [],
                  collectedValues := [], formAnswers := [] },
              step := some .confirm },
          messages := [noFieldsMsg, showConfirmationMsg
            { state with
              selectedRequestType := some selected,
              formTemplate := none,
              fieldCollection := some
                { currentFieldIndex := 0, fields := [],
                  collectedValues := [], formAnswers := [] },
              step := some .confirm }] } := by
    simp only [handleRequestType, htypes, Option.getD_some, hsel, hfields, hform]
    rfl
  rw [h1, getState_setState_self]
  exact ⟨rfl, rfl, rfl, rfl⟩

/-- Witness for C5: selecting request type 1 with no portal fields and no
form at the request-type fixture. -/
theorem empty_fields_direct_confirm_witness :
    getState (handleRequestFlow env0 "1" stateTypes "conv1"
        [("conv1", stateTypes)]).store "conv1"
      = { stateTypes with
          selectedRequestType := some rtA,
          formTemplate := none,
          fieldCollection := some
            { currentFieldIndex := 0, fields := [],
              collectedValues := [], formAnswers := [] },
          step := some .confirm } ∧
    (getState (handleRequestFlow env0 "1" stateTypes "conv1"
        [("conv1", stateTypes)]).store "conv1").step = some .confirm ∧
    (getState (handleRequestFlow env0 "1" stateTypes "conv1"
        [("conv1", stateTypes)]).store "conv1").fieldCollection
      = some { currentFieldIndex := 0, fields := [],
               collectedValues := [], formAnswers := [] } ∧
    (handleRequestFlow env0 "1" stateTypes "conv1"
        [("conv1", stateTypes)]).messages
      = [noFieldsMsg, showConfirmationMsg
          { stateTypes with
            selectedRequestType := some rtA,
            formTemplate := none,
            fieldCollection := some
              { currentFieldIndex := 0, fields := [],
                collectedValues := [], formAnswers := [] },
            step := some .confirm }] :=
  empty_fields_direct_confirm env0 "1" stateTypes "conv1" [("conv1", stateTypes)]
    [rtA] rtA rfl rfl (by decide) (by decide) (by decide) rfl rfl

/-! ## C2 — submission aborts while required fields are missing -/

theorem name_mem_missingRequired (fc : FieldCollection) (f : Field)
    (hmem : f ∈ fc.fields) (hreq : f.required = true)
    (hmiss : fieldMissingValue fc f = true) :
    f.name ∈ getMissingRequiredFields (some fc) := by
  unfold getMissingRequiredFields
  exact List.mem_map_of_mem _
    (List.mem_filter.2 ⟨hmem, by rw [hreq, hmiss]; rfl⟩)

/-- C2: at `confirm`, when some required field (of either source) has a
`null`/`undefined`/empty stored value, a `yes`/`y`/`retry` input reports the
list of missing field names (including that field's name), issues no upstream
create-request call, and leaves the store — hence the `confirm` state —
unchanged. -/
theorem confirm_missing_required_blocks (env : ITSMEnv) (text : String)
    (state : ConvState) (conversationId : String) (store : Store)
    (fc : FieldCollection) (f : Field)
    (hstep : state.step = some .confirm)
    (hfc : state.fieldCollection = some fc)
    (hmem : f ∈ fc.fields) (hreq : f.required = true)
    (hmiss : fieldMissingValue fc f = true)
    (hcmd : jsToLower text = "yes" ∨ jsToLower text = "y" ∨ jsToLower text = "retry")
    (hstore : getStateOpt store conversationId = some state) :
    (handleRequestFlow env text state conversationId store).store = store ∧
    (handleRequestFlow env text state conversationId store).createCalls = [] ∧
    (handleRequestFlow env text state conversationId store).messages
      = [missingFieldsMsg (getMissingRequiredFields (some fc))] ∧
    f.name ∈ getMissingRequiredFields (some fc) ∧
    getState (handleRequestFlow env text state conversationId store).store
        conversationId = state ∧
    state.step = some .confirm := by
  have hcmd1 : jsTrim (jsToLower text) ≠ "cancel" := by
    rcases hcmd with h | h | h <;> rw [h] <;> decide
  have hcmd2 : jsTrim (jsToLower text) ≠ "back" := by
    rcases hcmd with h | h | h <;> rw [h] <;> decide
  have hname : f.name ∈ getMissingRequiredFields (some fc) :=
    name_mem_missingRequired fc f hmem hreq hmiss
  have hlen : 0 < (getMissingRequiredFields (some fc)).length :=
    List.length_pos.2 (List.ne_nil_of_mem hname)
  have h1 : handleRequestFlow env text state conversationId store
      = { store := store,
          messages := [missingFieldsMsg (getMissingRequiredFields (some fc))] } := by
    rw [handleRequestFlow_at_confirm env text state conversationId store
      hcmd1 hcmd2 hstep]
    unfold handleConfirm
    rw [if_pos hcmd]
    unfold createRequestFlow
    rw [hfc]
    rw [if_pos hlen]
  rw [h1]
  refine ⟨rfl, rfl, rfl, hname, ?_, hstep⟩
  unfold getState
  rw [hstore]
  rfl

/-- Witness for C2: `yes` at the confirm fixture whose required summary was
never collected. -/
theorem confirm_missing_required_blocks_witness :
    (handleRequestFlow env0 "yes" stateConfirmMissing "conv1"
        [("conv1", stateConfirmMissing)]).store
      = [("conv1", stateConfirmMissing)] ∧
    (handleRequestFlow env0 "yes" stateConfirmMissing "conv1"
        [("conv1", stateConfirmMissing)]).createCalls = [] ∧
    (handleRequestFlow env0 "yes" stateConfirmMissing "conv1"
        [("conv1", stateConfirmMissing)]).messages
      = [missingFieldsMsg (getMissingRequiredFields
          stateConfirmMissing.fieldCollection)] ∧
    fieldSummary.name ∈ getMissingRequiredFields
        stateConfirmMissing.fieldCollection ∧
    getState (handleRequestFlow env0 "yes" stateConfirmMissing "conv1"
        [("conv1", stateConfirmMissing)]).store "conv1" = stateConfirmMissing ∧
    stateConfirmMissing.step = some .confirm :=
  confirm_missing_required_blocks env0 "yes" stateConfirmMissing "conv1"
    [("conv1", stateConfirmMissing)]
    { currentFieldIndex := 3,
      fields := [fieldSummary, fieldSeverity, fieldDue],
      collectedValues := [("severity", .vids ["s1"])],
      formAnswers := [] }
    fieldSummary rfl rfl (by decide) rfl (by decide) (Or.inl (by decide)) rfl

/-! ## C3 — submission failure retries, success deletes state -/

theorem strContains_foldl (l : List String) (acc : String) (n : String)
    (h : strContains acc n ∨ ∃ p ∈ l, strContains p n) :
    strContains (l.foldl (fun a b => a ++ b) acc) n := by
  induction l generalizing acc with
  | nil =>
    rcases h with h | ⟨p, hp, _⟩
    · exact h
    · cases hp
  | cons x xs ih =>
    rcases h with h | ⟨p, hp, hc⟩
    · exact ih _ (Or.inl (strContains_append_right x h))
    · rcases List.mem_cons.1 hp with rfl | hp2
      · exact ih _ (Or.inl (strContains_append_left acc hc))
      · exact ih _ (Or.inr ⟨p, hp2, hc⟩)

theorem strContains_build (b : MessageBuilder) (p n : String)
    (hp : p ∈ b.parts) (hc : strContains p n) :
    strContains b.build n := by
  unfold MessageBuilder.build
  exact strContains_foldl b.parts "" n (Or.inr ⟨p, hp, hc⟩)

theorem foldl_addLine_parts (lines : List String) (b : MessageBuilder) :
    (lines.foldl (fun bb l => bb.addLine l) b).parts
      = b.parts ++ lines.map (fun l => l ++ "<br/>") := by
  induction lines generalizing b with
  | nil => simp
  | cons x xs ih =>
    rw [List.foldl_cons, ih]
    simp [MessageBuilder.addLine, MessageBuilder.add]

theorem strContains_failureMsg_elapsed (env : ITSMEnv) (e : String) :
    strContains (failureMsg env e) ("Failed after " ++ env.elapsed) := by
  unfold failureMsg
  apply strContains_build _
    ("<i style=\"color:gray\">Failed after " ++ env.elapsed ++ "</i>")
  · show _ ∈ [_, _, _, _]
    simp
  · exact ⟨"<i style=\"color:gray\">", "</i>", rfl⟩

theorem strContains_failureMsg_error (env : ITSMEnv) (e : String) :
    strContains (failureMsg env e) e := by
  unfold failureMsg
  apply strContains_build _ (("❌ Failed to create: " ++ e) ++ "<br/>")
  · show _ ∈ [_, _, _, _]
    simp
  · exact strContains_append_right _ (strContains_append_left _ (strContains_self e))

theorem strContains_successMsg_issueKey (env : ITSMEnv)
    (issueKey summary : String) (formLine : List String) (url : String) :
    strContains (successMsg env issueKey summary formLine url) issueKey := by
  unfold successMsg
  apply strContains_build _ ((bold issueKey ++ ": " ++ summary) ++ "<br/>")
  · simp
  · apply strContains_append_right
    apply strContains_append_right
    apply strContains_append_right
    unfold bold
    exact strContains_append_right _ (strContains_append_left _ (strContains_self issueKey))

theorem strContains_successMsg_link (env : ITSMEnv)
    (issueKey summary : String) (formLine : List String) (url : String) :
    strContains (successMsg env issueKey summary formLine url)
      (link "View in Portal" url) := by
  unfold successMsg
  apply strContains_build _ (link "View in Portal" url ++ "<br/>")
  · simp
  · exact strContains_append_right _ (strContains_self _)

/-- C3: at `confirm` with no missing required fields, a `yes`/`y`/`retry`
input issues exactly one create-request call; when the call fails the failure
is reported with the error message and the elapsed time while the store — and
hence the `confirm` state — is unchanged; when it succeeds, the sent message
contains the created issue key and the "View in Portal" link to its portal
URL, and the conversation state is deleted from the store. -/
theorem submission_outcome (env : ITSMEnv) (text : String) (state : ConvState)
    (conversationId : String) (store : Store) (desk : ServiceDesk)
    (rt : RequestType)
    (hstep : state.step = some .confirm)
    (hdesk : state.selectedServiceDesk = some desk)
    (hrt : state.selectedRequestType = some rt)
    (hnomiss : getMissingRequiredFields state.fieldCollection = [])
    (hcmd : jsToLower text = "yes" ∨ jsToLower text = "y" ∨ jsToLower text = "retry")
    (hstore : getStateOpt store conversationId = some state) :
    (∀ e, env.createRequest
        (mkCreateInput desk rt (getCollectedFieldValues state.fieldCollection))
        = .error e →
      (handleRequestFlow env text state conversationId store).store = store ∧
      getState (handleRequestFlow env text state conversationId store).store
          conversationId = state ∧
      state.step = some .confirm ∧
      (handleRequestFlow env text state conversationId store).messages
        = [failureMsg env e] ∧
      strContains (failureMsg env e) ("Failed after " ++ env.elapsed) ∧
      strContains (failureMsg env e) e ∧
      (handleRequestFlow env text state conversationId store).createCalls
        = [mkCreateInput desk rt
            (getCollectedFieldValues state.fieldCollection)]) ∧
    (∀ res, env.createRequest
        (mkCreateInput desk rt (getCollectedFieldValues state.fieldCollection))
        = .ok res →
      (handleRequestFlow env text state conversationId store).store
        = deleteState store conversationId ∧
      getStateOpt (handleRequestFlow env text state conversationId store).store
          conversationId = none ∧
      (∃ msg, (handleRequestFlow env text state conversationId store).messages
          = [msg] ∧
        strContains msg res.issueKey ∧
        strContains msg (link "View in Portal" (env.getPortalUrl res.issueKey))) ∧
      (handleRequestFlow env text state conversationId store).createCalls
        = [mkCreateInput desk rt
            (getCollectedFieldValues state.fieldCollection)]) := by
  have hcmd1 : jsTrim (jsToLower text) ≠ "cancel" := by
    rcases hcmd with h | h | h <;> rw [h] <;> decide
  have hcmd2 : jsTrim (jsToLower text) ≠ "back" := by
    rcases hcmd with h | h | h <;> rw [h] <;> decide
  have hflow : handleRequestFlow env text state conversationId store
      = createRequestFlow env state conversationId store := by
    rw [handleRequestFlow_at_confirm env text state conversationId store
      hcmd1 hcmd2 hstep]
    unfold handleConfirm
    rw [if_pos hcmd]
  constructor
  · intro e he
    have h1 : handleRequestFlow env text state conversationId store
        = { store := store, messages := [failureMsg env e],
            createCalls := [mkCreateInput desk rt
              (getCollectedFieldValues state.fieldCollection)] } := by
      rw [hflow]
      simp [createRequestFlow, hnomiss, hdesk, hrt, he]
    rw [h1]
    refine ⟨rfl, ?_, hstep, rfl, strContains_failureMsg_elapsed env e,
      strContains_failureMsg_error env e, rfl⟩
    unfold getState
    rw [hstore]
    rfl
  · intro res hok
    have h1 : handleRequestFlow env text state conversationId store
        = { store := deleteState store conversationId,
            messages := [successMsg env res.issueKey
              (summaryOf (getCollectedFieldValues state.fieldCollection) rt)
              (formLineOf env res state)
              (env.getPortalUrl res.issueKey)],
            createCalls := [mkCreateInput desk rt
              (getCollectedFieldValues state.fieldCollection)] } := by
      rw [hflow]
      simp [createRequestFlow, hnomiss, hdesk, hrt, hok]
    rw [h1]
    refine ⟨rfl, getStateOpt_deleteState_self store conversationId,
      ⟨_, rfl, strContains_successMsg_issueKey env _ _ _ _,
        strContains_successMsg_link env _ _ _ _⟩, rfl⟩

/-- Witness for C3 (failure branch): `yes` at the ready confirm fixture with
the failing environment keeps the store and reports the error. -/
theorem submission_outcome_witness :
    (handleRequestFlow envFail "yes" stateConfirmReady "conv1"
        [("conv1", stateConfirmReady)]).store
      = [("conv1", stateConfirmReady)] ∧
    getState (handleRequestFlow envFail "yes" stateConfirmReady "conv1"
        [("conv1", stateConfirmReady)]).store "conv1" = stateConfirmReady ∧
    stateConfirmReady.step = some .confirm ∧
    (handleRequestFlow envFail "yes" stateConfirmReady "conv1"
        [("conv1", stateConfirmReady)]).messages
      = [failureMsg envFail "Upstream 502"] ∧
    strContains (failureMsg envFail "Upstream 502")
      ("Failed after " ++ envFail.elapsed) ∧
    strContains (failureMsg envFail "Upstream 502") "Upstream 502" ∧
    (handleRequestFlow envFail "yes" stateConfirmReady "conv1"
        [("conv1", stateConfirmReady)]).createCalls
      = [mkCreateInput deskA rtA
          (getCollectedFieldValues stateConfirmReady.fieldCollection)] :=
  (submission_outcome envFail "yes" stateConfirmReady "conv1"
    [("conv1", stateConfirmReady)] deskA rtA rfl rfl rfl (by decide)
    (Or.inl (by decide)) rfl).1 "Upstream 502" rfl

/-! ## Field-input lemmas shared by C7 and C8 -/

theorem storeValue_fields (fc : FieldCollection) (field : Field) (pv : Value)
    (fa : Option FormAnswer) : (storeValue fc field pv fa).fields = fc.fields := by
  unfold storeValue
  cases field.source
  · rfl
  · cases field.formQuestionId <;> rfl

theorem storeValue_currentFieldIndex (fc : FieldCollection) (field : Field)
    (pv : Value) (fa : Option FormAnswer) :
    (storeValue fc field pv fa).currentFieldIndex = fc.currentFieldIndex := by
  unfold storeValue
  cases field.source
  · rfl
  · cases field.formQuestionId <;> rfl

theorem advanceAfterStore_eq (state : ConvState) (fc2 : FieldCollection)
    (conversationId : String) (store : Store) :
    advanceAfterStore state fc2 conversationId store
      = (if fc2.currentFieldIndex + 1 = fc2.fields.length
         then { store := setState store conversationId
                  { state with step := some .confirm, fieldCollection := some {
                      fc2 with currentFieldIndex := fc2.currentFieldIndex + 1 } },
                messages := [showConfirmationMsg
                  { state with step := some .confirm, fieldCollection := some {
                      fc2 with currentFieldIndex := fc2.currentFieldIndex + 1 } }] }
         else { store := setState store conversationId
                  { state with fieldCollection := some {
                      fc2 with currentFieldIndex := fc2.currentFieldIndex + 1 } },
                messages := [showFieldMsg
                  { state with fieldCollection := some {
                      fc2 with currentFieldIndex := fc2.currentFieldIndex + 1 } }] }) :=
  rfl

theorem handleFlow_collect_core (env : ITSMEnv) (text : String)
    (state : ConvState) (conversationId : String) (store : Store)
    (fc : FieldCollection) (field : Field)
    (hstep : state.step = some .collect_field)
    (hfc : state.fieldCollection = some fc)
    (hfield : fc.fields.get? fc.currentFieldIndex = some field)
    (hcmd1 : jsTrim (jsToLower text) ≠ "cancel")
    (hcmd2 : jsTrim (jsToLower text) ≠ "back") :
    handleRequestFlow env text state conversationId store
      = handleFieldCore text state fc field conversationId store := by
  rw [handleRequestFlow_at_collect env text state conversationId store
    hcmd1 hcmd2 hstep]
  simp only [handleField, hfc, hfield]

/-! ## C7 — multiselect input is all-or-nothing -/

/-- C7 (spec-modelled field handler): for a multiselect field with a
non-empty choice list, a comma-separated input with any entry that is not a
valid 1-based index is rejected as a whole — the error names the valid range
`1-N` and the conversation state is unchanged, so no partial selection is
stored; an input whose entries are all valid stores the array of selected
choice ids on the field's side and advances the cursor. -/
theorem multiselect_all_or_nothing (env : ITSMEnv) (text : String)
    (state : ConvState) (conversationId : String) (store : Store)
    (fc : FieldCollection) (field : Field)
    (hstep : state.step = some .collect_field)
    (hfc : state.fieldCollection = some fc)
    (hawait : fc.awaitingCustomValue = false)
    (hfield : fc.fields.get? fc.currentFieldIndex = some field)
    (hftype : field.ftype = "multiselect")
    (hchoices : 0 < field.validValues.length)
    (hcmd1 : jsTrim (jsToLower text) ≠ "cancel")
    (hcmd2 : jsTrim (jsToLower text) ≠ "back")
    (hskip : jsTrim (jsToLower text) ≠ "skip")
    (hstore : getStateOpt store conversationId = some state) :
    (parseSelections ((strSplitOn text ',').map jsTrim) field.validValues.length
        = none →
      (handleRequestFlow env text state conversationId store).store = store ∧
      (handleRequestFlow env text state conversationId store).messages
        = [multiselectRangeMsg field.validValues.length] ∧
      getState (handleRequestFlow env text state conversationId store).store
          conversationId = state ∧
      strContains (multiselectRangeMsg field.validValues.length)
        ("1-" ++ toString field.validValues.length)) ∧
    (∀ idxs, parseSelections ((strSplitOn text ',').map jsTrim)
        field.validValues.length = some idxs →
      getState (handleRequestFlow env text state conversationId store).store
          conversationId
        = (if fc.currentFieldIndex + 1 = fc.fields.length
           then { state with step := some .confirm, fieldCollection := some {
                    storeValue fc field
                      (.vids (idxs.filterMap (fun i =>
                        (field.validValues.get? (i - 1)).map (fun c => c.id))))
                      (some (.choices (idxs.filterMap (fun i =>
                        (field.validValues.get? (i - 1)).map (fun c => c.id)))))
                    with currentFieldIndex := fc.currentFieldIndex + 1 } }
           else { state with fieldCollection := some {
                    storeValue fc field
                      (.vids (idxs.filterMap (fun i =>
                        (field.validValues.get? (i - 1)).map (fun c => c.id))))
                      (some (.choices (idxs.filterMap (fun i =>
                        (field.validValues.get? (i - 1)).map (fun c => c.id)))))
                    with currentFieldIndex := fc.currentFieldIndex + 1 } })) := by
  have hcore : handleRequestFlow env text state conversationId store
      = handleFieldCore text state fc field conversationId store :=
    handleFlow_collect_core env text state conversationId store fc field
      hstep hfc hfield hcmd1 hcmd2
  have hbranch : handleFieldCore text state fc field conversationId store
      = match parseSelections ((strSplitOn text ',').map jsTrim)
          field.validValues.length with
        | some idxs =>
          advanceAfterStore state
            (storeValue fc field
              (.vids (idxs.filterMap (fun i =>
                (field.validValues.get? (i - 1)).map (fun c => c.id))))
              (some (.choices (idxs.filterMap (fun i =>
                (field.validValues.get? (i - 1)).map (fun c => c.id))))))
            conversationId store
        | none =>
          { store := store,
            messages := [multiselectRangeMsg field.validValues.length] } := by
    unfold handleFieldCore
    rw [hawait]
    rw [if_neg (by simp)]
    rw [if_neg hskip]
    rw [if_neg (by rw [hftype]; decide)]
    rw [if_neg (by rw [hftype]; simp)]
    rw [if_pos ⟨hftype, hchoices⟩]
  rw [hcore, hbranch]
  constructor
  · intro hnone
    simp only [hnone]
    refine ⟨trivial, trivial, ?_, ?_⟩
    · unfold getState
      rw [hstore]
      rfl
    · exact ⟨"Invalid selection. Enter numbers ", " separated by commas.", rfl⟩
  · intro idxs hsome
    simp only [hsome]
    rw [advanceAfterStore_eq]
    rw [storeValue_currentFieldIndex, storeValue_fields]
    by_cases hend : fc.currentFieldIndex + 1 = fc.fields.length
    · rw [if_pos hend, if_pos hend, getState_setState_self]
    · rw [if_neg hend, if_neg hend, getState_setState_self]

/-- Witness for C7: against the three-choice severity field, "1,9" is wholly
rejected with the 1-3 range error and nothing stored, while "1,3" stores both
selected ids and advances the cursor. -/
theorem multiselect_all_or_nothing_witness :
    ((handleRequestFlow env0 "1,9" stateCollect "conv1" store0).store = store0 ∧
     (handleRequestFlow env0 "1,9" stateCollect "conv1" store0).messages
       = [multiselectRangeMsg 3] ∧
     getState (handleRequestFlow env0 "1,9" stateCollect "conv1" store0).store
         "conv1" = stateCollect ∧
     strContains (multiselectRangeMsg 3) ("1-" ++ toString 3)) ∧
    (getState (handleRequestFlow env0 "1,3" stateCollect "conv1" store0).store
        "conv1"
      = { stateCollect with fieldCollection := some {
            currentFieldIndex := 2,
            fields := [fieldSummary, fieldSeverity, fieldDue],
            collectedValues := [("summary", .vstr "Printer broken"),
                                ("severity", .vids ["s1", "s3"])],
            formAnswers := [] } }) := by
  have hfc : stateCollect.fieldCollection = some
      { currentFieldIndex := 1,
        fields := [fieldSummary, fieldSeverity, fieldDue],
        collectedValues := [("summary", .vstr "Printer broken")],
        formAnswers := [] } := rfl
  constructor
  · have h := (multiselect_all_or_nothing env0 "1,9" stateCollect "conv1" store0
      _ fieldSeverity rfl hfc rfl rfl rfl (by decide) (by decide) (by decide)
      (by decide) rfl).1 (by decide)
    exact h
  · have h := (multiselect_all_or_nothing env0 "1,3" stateCollect "conv1" store0
      _ fieldSeverity rfl hfc rfl rfl rfl (by decide) (by decide) (by decide)
      (by decide) rfl).2 [1, 3] (by decide)
    rw [h]
    rfl

/-! ## C8 — date fields accept exactly YYYY-MM-DD and store it verbatim -/

/-- C8 (spec-modelled field handler): for a date field, an input matching
`YYYY-MM-DD` exactly is accepted and the stored value is exactly the input
string (for a portal field it is looked up verbatim under the field id),
advancing the cursor; any other input is rejected with a message showing the
format and an example, and nothing changes. -/
theorem date_exact_format (env : ITSMEnv) (text : String) (state : ConvState)
    (conversationId : String) (store : Store) (fc : FieldCollection)
    (field : Field)
    (hstep : state.step = some .collect_field)
    (hfc : state.fieldCollection = some fc)
    (hawait : fc.awaitingCustomValue = false)
    (hfield : fc.fields.get? fc.currentFieldIndex = some field)
    (hftype : field.ftype = "date")
    (hcmd1 : jsTrim (jsToLower text) ≠ "cancel")
    (hcmd2 : jsTrim (jsToLower text) ≠ "back")
    (hskip : jsTrim (jsToLower text) ≠ "skip")
    (hstore : getStateOpt store conversationId = some state) :
    (isYMD text = true →
      getState (handleRequestFlow env text state conversationId store).store
          conversationId
        = (if fc.currentFieldIndex + 1 = fc.fields.length
           then { state with step := some .confirm, fieldCollection := some {
                    storeValue fc field (.vstr text) (some (.text text))
                    with currentFieldIndex := fc.currentFieldIndex + 1 } }
           else { state with fieldCollection := some {
                    storeValue fc field (.vstr text) (some (.text text))
                    with currentFieldIndex := fc.currentFieldIndex + 1 } }) ∧
      (field.source = .portal →
        lookupKey (storeValue fc field (.vstr text) (some (.text text))).collectedValues
            field.fieldId = some (.vstr text))) ∧
    (isYMD text = false →
      (handleRequestFlow env text state conversationId store).store = store ∧
      (handleRequestFlow env text state conversationId store).messages
        = [dateFormatMsg] ∧
      getState (handleRequestFlow env text state conversationId store).store
          conversationId = state ∧
      strContains dateFormatMsg "YYYY-MM-DD" ∧
      strContains dateFormatMsg "2024-01-15") := by
  have hcore : handleRequestFlow env text state conversationId store
      = handleFieldCore text state fc field conversationId store :=
    handleFlow_collect_core env text state conversationId store fc field
      hstep hfc hfield hcmd1 hcmd2
  have hbranch : handleFieldCore text state fc field conversationId store
      = if isYMD text
        then advanceAfterStore state
          (storeValue fc field (.vstr text) (some (.text text)))
          conversationId store
        else { store := store, messages := [dateFormatMsg] } := by
    unfold handleFieldCore
    rw [hawait]
    rw [if_neg (by simp)]
    rw [if_neg hskip]
    rw [if_neg (by rw [hftype]; decide)]
    rw [if_neg (by rw [hftype]; simp)]
    rw [if_neg (by rw [hftype]; simp)]
    rw [if_pos hftype]
  rw [hcore, hbranch]
  constructor
  · intro hymd
    rw [if_pos hymd, advanceAfterStore_eq]
    simp only [storeValue_currentFieldIndex, storeValue_fields]
    constructor
    · by_cases hend : fc.currentFieldIndex + 1 = fc.fields.length
      · rw [if_pos hend, if_pos hend, getState_setState_self]
      · rw [if_neg hend, if_neg hend, getState_setState_self]
    · intro hsource
      unfold storeValue
      rw [hsource]
      exact lookupKey_insertKey_self fc.collectedValues field.fieldId (.vstr text)
  · intro hymd
    rw [if_neg (by rw [hymd]; decide)]
    refine ⟨rfl, rfl, ?_, ?_, ?_⟩
    · unfold getState
      rw [hstore]
      rfl
    · exact ⟨"Invalid date. Use format ", " (e.g. 2024-01-15).", rfl⟩
    · exact ⟨"Invalid date. Use format YYYY-MM-DD (e.g. ", ").", rfl⟩

/-- Witness for C8: "2024-01-15" on the date-field fixture stores exactly
that string and moves to `confirm` (last field); "01/15/2024" is rejected. -/
theorem date_exact_format_witness :
    (getState (handleRequestFlow env0 "2024-01-15" stateCollectDate "conv1"
        [("conv1", stateCollectDate)]).store "conv1"
      = { stateCollectDate with step := some .confirm, fieldCollection := some {
            currentFieldIndex := 3,
            fields := [fieldSummary, fieldSeverity, fieldDue],
            collectedValues := [("summary", .vstr "Printer broken"),
                                ("severity", .vids ["s1"]),
                                ("duedate", .vstr "2024-01-15")],
            formAnswers := [] } } ∧
     lookupKey [(("summary" : String), Value.vstr "Printer broken"),
                ("severity", Value.vids ["s1"]),
                ("duedate", Value.vstr "2024-01-15")] "duedate"
       = some (.vstr "2024-01-15")) ∧
    ((handleRequestFlow env0 "01/15/2024" stateCollectDate "conv1"
        [("conv1", stateCollectDate)]).store = [("conv1", stateCollectDate)] ∧
     (handleRequestFlow env0 "01/15/2024" stateCollectDate "conv1"
        [("conv1", stateCollectDate)]).messages = [dateFormatMsg]) := by
  have hfc : stateCollectDate.fieldCollection = some
      { currentFieldIndex := 2,
        fields := [fieldSummary, fieldSeverity, fieldDue],
        collectedValues := [("summary", .vstr "Printer broken"),
                            ("severity", .vids ["s1"])],
        formAnswers := [] } := rfl
  constructor
  · have h := (date_exact_format env0 "2024-01-15" stateCollectDate "conv1"
      [("conv1", stateCollectDate)] _ fieldDue rfl hfc rfl rfl rfl (by decide)
      (by decide) (by decide) rfl).1 (by decide)
    constructor
    · rw [h.1]
      rfl
    · decide
  · have h := (date_exact_format env0 "01/15/2024" stateCollectDate "conv1"
      [("conv1", stateCollectDate)] _ fieldDue rfl hfc rfl rfl rfl (by decide)
      (by decide) (by decide) rfl).2 (by decide)
    exact ⟨h.1, h.2.1⟩

/-! ## C4 — field reconciliation ordering, uniqueness, table rows -/

theorem strAppendLeft_inj (p a b : String) (h : p ++ a = p ++ b) : a = b := by
  have hd : (p ++ a).data = (p ++ b).data := congrArg String.data h
  rw [String.data_append, String.data_append] at hd
  exact String.ext (List.append_cancel_left hd)

theorem formOnlyGo_nil (plabels : List String) (seen : List (String × Nat)) :
    formOnlyGo plabels [] seen = [] := rfl

theorem formOnlyGo_cons (plabels : List String) (q : FormQuestion)
    (rest : List FormQuestion) (seen : List (String × Nat)) :
    formOnlyGo plabels (q :: rest) seen
      = if plabels.contains (normLabel q.label)
        then formOnlyGo plabels rest seen
        else mkFormOnlyField q (((lookupKey seen (normLabel q.label)).getD 0) + 1)
          :: formOnlyGo plabels rest
              (insertKey seen (normLabel q.label)
                (((lookupKey seen (normLabel q.label)).getD 0) + 1)) := rfl

theorem formOnlyGo_mem (plabels : List String) :
    ∀ (qs : List FormQuestion) (seen : List (String × Nat)) (f : Field),
      f ∈ formOnlyGo plabels qs seen →
      ∃ q ∈ qs, ∃ n : Nat, f = mkFormOnlyField q n := by
  intro qs
  induction qs with
  | nil => intro seen f hf; rw [formOnlyGo_nil] at hf; cases hf
  | cons q rest ih =>
    intro seen f hf
    rw [formOnlyGo_cons] at hf
    by_cases h : plabels.contains (normLabel q.label)
    · rw [if_pos h] at hf
      obtain ⟨q2, hq2, n, hfn⟩ := ih seen f hf
      exact ⟨q2, List.mem_cons_of_mem q hq2, n, hfn⟩
    · rw [if_neg h] at hf
      rcases List.mem_cons.1 hf with hf1 | hf2
      · exact ⟨q, List.mem_cons_self q rest, _, hf1⟩
      · obtain ⟨q2, hq2, n, hfn⟩ := ih _ f hf2
        exact ⟨q2, List.mem_cons_of_mem q hq2, n, hfn⟩

theorem formOnlyGo_ids_sublist (plabels : List String) :
    ∀ (qs : List FormQuestion) (seen : List (String × Nat)),
      ((formOnlyGo plabels qs seen).map (fun f => f.fieldId)).Sublist
        (qs.map (fun q => "form_" ++ q.id)) := by
  intro qs
  induction qs with
  | nil => intro seen; rw [formOnlyGo_nil]; exact List.Sublist.refl []
  | cons q rest ih =>
    intro seen
    rw [formOnlyGo_cons]
    by_cases h : plabels.contains (normLabel q.label)
    · rw [if_pos h, List.map_cons]
      exact (ih seen).cons _
    · rw [if_neg h, List.map_cons, List.map_cons]
      exact (ih _).cons₂ _

theorem formOnlyGo_no_table_of_nodup (plabels : List String) :
    ∀ (qs : List FormQuestion) (seen : List (String × Nat)),
      (qs.map (fun q => normLabel q.label)).Nodup →
      (∀ q ∈ qs, lookupKey seen (normLabel q.label) = none) →
      ∀ f ∈ formOnlyGo plabels qs seen, f.isTableField = false := by
  intro qs
  induction qs with
  | nil => intro seen _ _ f hf; rw [formOnlyGo_nil] at hf; cases hf
  | cons q rest ih =>
    intro seen hnodup hseen f hf
    rw [formOnlyGo_cons] at hf
    rw [List.map_cons] at hnodup
    have hnodup2 := (List.nodup_cons.1 hnodup).2
    have hne := (List.nodup_cons.1 hnodup).1
    by_cases h : plabels.contains (normLabel q.label)
    · rw [if_pos h] at hf
      exact ih seen hnodup2 (fun q2 hq2 => hseen q2 (List.mem_cons_of_mem q hq2)) f hf
    · rw [if_neg h] at hf
      rw [hseen q (List.mem_cons_self q rest)] at hf
      rcases List.mem_cons.1 hf with hf1 | hf2
      · rw [hf1]; rfl
      · refine ih _ hnodup2 ?_ f hf2
        intro q2 hq2
        have hne2 : normLabel q2.label ≠ normLabel q.label := by
          intro he
          exact hne (he ▸ List.mem_map_of_mem (fun q => normLabel q.label) hq2)
        rw [lookupKey_insertKey_ne _ _ hne2]
        exact hseen q2 (List.mem_cons_of_mem q hq2)

theorem formOnlyGo_table_of_seen (plabels : List String) :
    ∀ (qs : List FormQuestion) (seen : List (String × Nat)) (k : String),
      plabels.contains k = false →
      (∃ q ∈ qs, normLabel q.label = k) →
      1 ≤ (lookupKey seen k).getD 0 →
      ∃ f ∈ formOnlyGo plabels qs seen, f.isTableField = true := by
  intro qs
  induction qs with
  | nil =>
    intro seen k _ hmem _
    obtain ⟨q, hq, _⟩ := hmem
    cases hq
  | cons q rest ih =>
    intro seen k hk hmem hcount
    rw [formOnlyGo_cons]
    by_cases hql : normLabel q.label = k
    · rw [hql]
      rw [hk]
      simp only [Bool.false_eq_true, if_false]
      refine ⟨mkFormOnlyField q (((lookupKey seen k).getD 0) + 1),
        List.mem_cons_self _ _, ?_⟩
      show decide (2 ≤ ((lookupKey seen k).getD 0) + 1) = true
      exact decide_eq_true (Nat.succ_le_succ hcount)
    · have hmem2 : ∃ q2 ∈ rest, normLabel q2.label = k := by
        obtain ⟨q2, hq2, hl2⟩ := hmem
        rcases List.mem_cons.1 hq2 with rfl | hq2r
        · exact absurd hl2 hql
        · exact ⟨q2, hq2r, hl2⟩
      by_cases h : plabels.contains (normLabel q.label)
      · rw [if_pos h]
        exact ih seen k hk hmem2 hcount
      · rw [if_neg h]
        have hcount2 : 1 ≤ (lookupKey
            (insertKey seen (normLabel q.label)
              (((lookupKey seen (normLabel q.label)).getD 0) + 1)) k).getD 0 := by
          rw [lookupKey_insertKey_ne _ _ (fun he => hql he.symm)]
          exact hcount
        obtain ⟨f, hf, ht⟩ := ih _ k hk hmem2 hcount2
        exact ⟨f, List.mem_cons_of_mem _ hf, ht⟩

theorem formOnlyGo_dup_table (plabels : List String) :
    ∀ (l1 : List FormQuestion) (q1 : FormQuestion) (l2 : List FormQuestion)
      (q2 : FormQuestion) (l3 : List FormQuestion) (seen : List (String × Nat)),
      normLabel q1.label = normLabel q2.label →
      plabels.contains (normLabel q1.label) = false →
      ∃ f ∈ formOnlyGo plabels (l1 ++ (q1 :: (l2 ++ (q2 :: l3)))) seen,
        f.isTableField = true := by
  intro l1
  induction l1 with
  | nil =>
    intro q1 l2 q2 l3 seen hlabel hnp
    rw [List.nil_append, formOnlyGo_cons, hnp]
    simp only [Bool.false_eq_true, if_false]
    have hmem : ∃ q ∈ l2 ++ q2 :: l3, normLabel q.label = normLabel q1.label :=
      ⟨q2, List.mem_append_right l2 (List.mem_cons_self q2 l3), hlabel.symm⟩
    have hcount : 1 ≤ (lookupKey
        (insertKey seen (normLabel q1.label)
          (((lookupKey seen (normLabel q1.label)).getD 0) + 1))
        (normLabel q1.label)).getD 0 := by
      rw [lookupKey_insertKey_self]
      exact Nat.succ_le_succ (Nat.zero_le _)
    obtain ⟨f, hfm, hft⟩ := formOnlyGo_table_of_seen plabels (l2 ++ q2 :: l3) _
      (normLabel q1.label) hnp hmem hcount
    exact ⟨f, List.mem_cons_of_mem _ hfm, hft⟩
  | cons x rest ih =>
    intro q1 l2 q2 l3 seen hlabel hnp
    rw [List.cons_append, formOnlyGo_cons]
    by_cases hx : plabels.contains (normLabel x.label)
    · rw [if_pos hx]
      exact ih q1 l2 q2 l3 seen hlabel hnp
    · rw [if_neg hx]
      obtain ⟨f, hfm, hft⟩ := ih q1 l2 q2 l3
        (insertKey seen (normLabel x.label)
          (((lookupKey seen (normLabel x.label)).getD 0) + 1)) hlabel hnp
      exact ⟨f, List.mem_cons_of_mem _ hfm, hft⟩

/-- Counterexample for C4: the claim quantifies over every pair of input
lists, but an input repeating one portal field verbatim yields that field
twice, with a duplicated `fieldId`. -/
theorem field_reconciliation_counterexample :
    ((prepareFieldsForCollection [pfDup, pfDup] []).map (fun f => f.fieldId))
      = ["summary", "summary"] ∧
    ¬ ((prepareFieldsForCollection [pfDup, pfDup] []).map
        (fun f => f.fieldId)).Nodup := by
  constructor
  · rfl
  · decide

/-- C4 amended: for input lists in which portal `fieldId`s are pairwise
distinct, form-question ids are pairwise distinct, and no portal `fieldId`
collides with a synthesized `"form_" + questionId`, the reconciled list is
the portal fields (in upstream order, one emitted field each, all marked
`source = portal` and keeping their `fieldId`) followed by form-only fields
(all `source = form`); no two emitted fields share a `fieldId` and each
portal field's id occurs exactly once; every table-marked form field carries
a row number `n ≥ 2` and the `"label (Row n)"` display name, no table fields
arise when form-question labels are distinct, and two surviving form
questions with the same normalized label always produce a table field. -/
theorem field_reconciliation_props (portalFields : List PortalField)
    (formQuestions : List FormQuestion)
    (hpf : (portalFields.map (fun pf => pf.fieldId)).Nodup)
    (hq : (formQuestions.map (fun q => q.id)).Nodup)
    (hcross : ∀ pf ∈ portalFields, ∀ q ∈ formQuestions,
      pf.fieldId ≠ "form_" ++ q.id) :
    prepareFieldsForCollection portalFields formQuestions
      = portalFields.map (portalToField (buildLabelMap formQuestions))
        ++ formOnlyGo (portalLabelsOf portalFields) formQuestions [] ∧
    (∀ pf, (portalToField (buildLabelMap formQuestions) pf).source = .portal ∧
      (portalToField (buildLabelMap formQuestions) pf).fieldId = pf.fieldId) ∧
    (∀ f ∈ formOnlyGo (portalLabelsOf portalFields) formQuestions [],
      f.source = .form) ∧
    ((prepareFieldsForCollection portalFields formQuestions).map
      (fun f => f.fieldId)).Nodup ∧
    (∀ pf ∈ portalFields,
      ((prepareFieldsForCollection portalFields formQuestions).map
        (fun f => f.fieldId)).count pf.fieldId = 1) ∧
    (∀ f ∈ formOnlyGo (portalLabelsOf portalFields) formQuestions [],
      f.isTableField = true →
      ∃ q ∈ formQuestions, ∃ n : Nat, 2 ≤ n ∧ f.rowNumber = some n ∧
        f.fieldId = "form_" ++ q.id ∧
        f.name = q.label ++ " (Row " ++ toString n ++ ")") ∧
    ((formQuestions.map (fun q => normLabel q.label)).Nodup →
      ∀ f ∈ formOnlyGo (portalLabelsOf portalFields) formQuestions [],
        f.isTableField = false) ∧
    (∀ q1 q2 : FormQuestion, ∀ l1 l2 l3 : List FormQuestion,
      formQuestions = l1 ++ (q1 :: (l2 ++ (q2 :: l3))) →
      normLabel q1.label = normLabel q2.label →
      (portalLabelsOf portalFields).contains (normLabel q1.label) = false →
      ∃ f ∈ formOnlyGo (portalLabelsOf portalFields) formQuestions [],
        f.isTableField = true) := by
  have hids : (prepareFieldsForCollection portalFields formQuestions).map
      (fun f => f.fieldId)
      = portalFields.map (fun pf => pf.fieldId)
        ++ (formOnlyGo (portalLabelsOf portalFields) formQuestions []).map
            (fun f => f.fieldId) := by
    unfold prepareFieldsForCollection
    rw [List.map_append, List.map_map]
    rfl
  have hformids : ((formOnlyGo (portalLabelsOf portalFields) formQuestions []).map
      (fun f => f.fieldId)).Sublist (formQuestions.map (fun q => "form_" ++ q.id)) :=
    formOnlyGo_ids_sublist (portalLabelsOf portalFields) formQuestions []
  have hqids : (formQuestions.map (fun q => "form_" ++ q.id)).Nodup := by
    have : formQuestions.map (fun q => "form_" ++ q.id)
        = (formQuestions.map (fun q => q.id)).map (fun i => "form_" ++ i) := by
      rw [List.map_map]
      rfl
    rw [this]
    exact hq.map (fun a b hab => strAppendLeft_inj "form_" a b hab)
  have hnodup : ((prepareFieldsForCollection portalFields formQuestions).map
      (fun f => f.fieldId)).Nodup := by
    rw [hids]
    refine List.Nodup.append hpf (hformids.nodup hqids) ?_
    intro a hap haf
    obtain ⟨pf, hpfm, hpfe⟩ := List.mem_map.1 hap
    have haq := hformids.subset haf
    obtain ⟨q, hqm, hqe⟩ := List.mem_map.1 haq
    exact hcross pf hpfm q hqm (hpfe ▸ hqe.symm ▸ rfl)
  refine ⟨rfl, fun pf => ⟨rfl, rfl⟩, ?_, hnodup, ?_, ?_, ?_, ?_⟩
  · intro f hf
    obtain ⟨q, _, n, hfn⟩ := formOnlyGo_mem _ formQuestions [] f hf
    rw [hfn]
    rfl
  · intro pf hpfm
    refine List.count_eq_one_of_mem hnodup ?_
    rw [hids]
    exact List.mem_append_left _ (List.mem_map_of_mem (fun pf => pf.fieldId) hpfm)
  · intro f hf htable
    obtain ⟨q, hqm, n, hfn⟩ := formOnlyGo_mem _ formQuestions [] f hf
    have h2n : 2 ≤ n := by
      rw [hfn] at htable
      exact of_decide_eq_true htable
    refine ⟨q, hqm, n, h2n, ?_, ?_, ?_⟩
    · rw [hfn]
      show (if 2 ≤ n then some n else none) = some n
      rw [if_pos h2n]
    · rw [hfn]
      rfl
    · rw [hfn]
      show (if 2 ≤ n then q.label ++ " (Row " ++ toString n ++ ")" else q.label) = _
      rw [if_pos h2n]
  · intro hlabels f hf
    exact formOnlyGo_no_table_of_nodup _ formQuestions [] hlabels
      (fun q _ => rfl) f hf
  · intro q1 q2 l1 l2 l3 hsplit hlabel hnp
    rw [hsplit]
    exact formOnlyGo_dup_table (portalLabelsOf portalFields) l1 q1 l2 q2 l3 []
      hlabel hnp

/-- Witness for the amended C4: one portal field plus three form questions,
two of which share a normalized label — ids stay unique, the portal id occurs
once, and the duplicate label yields a table field. -/
theorem field_reconciliation_props_witness :
    ((prepareFieldsForCollection [pfDup] [qEmail1, qEmail2, qSummary]).map
      (fun f => f.fieldId)).Nodup ∧
    ((prepareFieldsForCollection [pfDup] [qEmail1, qEmail2, qSummary]).map
      (fun f => f.fieldId)).count "summary" = 1 ∧
    (∃ f ∈ formOnlyGo (portalLabelsOf [pfDup]) [qEmail1, qEmail2, qSummary] [],
      f.isTableField = true) := by
  have h := field_reconciliation_props [pfDup] [qEmail1, qEmail2, qSummary]
    (by decide) (by decide) (by decide)
  refine ⟨h.2.2.2.1, ?_, ?_⟩
  · exact h.2.2.2.2.1 pfDup (List.mem_singleton.2 rfl)
  · exact h.2.2.2.2.2.2.2 qEmail1 qEmail2 [] [] [qSummary] rfl (by decide)
      (by decide)

end AzureBot
